import Mathlib

/-
Verification development for `check_esxcli_hparray_MegaRAID.py` (v1.7), a
Nagios plugin that parses storcli diagnostic text and aggregates it into a
single health verdict.  The Python source is embedded shallowly: raw command
outputs are lists of characters, every regular-expression search of the source
is translated into an explicit character scan with the same leftmost-match /
lazy-quantifier / non-overlapping-findall semantics, and the mutable
`RaidStatus` accumulator becomes explicit state passing.  Scanners that
continue past a match (`re.findall` / `re.finditer`) take an explicit fuel
argument equal to the input length, which is always sufficient since every
match consumes at least one character.
-/

set_option maxRecDepth 8192

abbrev Str := List Char

def str (s : String) : Str := s.toList

/-- Python `\s` character class (space, tab, newline, return, vtab, formfeed). -/
def isSpaceC (c : Char) : Bool :=
  c == ' ' || c == '\t' || c == '\n' || c == '\r' || c == '\x0b' || c == '\x0c'

def isNonspace (c : Char) : Bool := !isSpaceC c

def eqCI (a b : Char) : Bool := a.toLower == b.toLower

/-- Case-insensitive prefix test (`re.match` with `re.IGNORECASE`). -/
def startsWithCI : Str → Str → Bool
  | [], _ => true
  | _ :: _, [] => false
  | p :: ps, c :: cs => eqCI p c && startsWithCI ps cs

/-- Case-sensitive prefix test. -/
def startsWithCS : Str → Str → Bool
  | [], _ => true
  | _ :: _, [] => false
  | p :: ps, c :: cs => (p == c) && startsWithCS ps cs

/-- Case-insensitive substring test (`pat.lower() in s.lower()`). -/
def containsCI (pat : Str) : Str → Bool
  | [] => pat.isEmpty
  | c :: cs => startsWithCI pat (c :: cs) || containsCI pat cs

/-- Case-sensitive substring test (Python `in`). -/
def containsSub (pat : Str) : Str → Bool
  | [] => pat.isEmpty
  | c :: cs => startsWithCS pat (c :: cs) || containsSub pat cs

def digitsVal (l : Str) : Nat := l.foldl (fun a c => a * 10 + (c.toNat - 48)) 0

def natStr (n : Nat) : Str := (Nat.repr n).toList

/-- Split text at newline characters (the line structure `re.MULTILINE` sees). -/
def splitLines : Str → List Str
  | [] => [[]]
  | c :: cs =>
    if c = '\n' then [] :: splitLines cs
    else
      match splitLines cs with
      | [] => [[c]]
      | l :: ls => (c :: l) :: ls

/-- Python `sep.join(xs)`. -/
def joinSep (sep : Str) : List Str → Str
  | [] => []
  | [x] => x
  | x :: xs => x ++ sep ++ joinSep sep xs

/-- Tail of the pattern `\s*[:=]\s*(\S+)` at the current position. -/
def sepToken (seps : List Char) (s : Str) : Option Str :=
  match s.dropWhile isSpaceC with
  | c :: rest =>
    if seps.contains c then
      let tok := (rest.dropWhile isSpaceC).takeWhile isNonspace
      if tok = [] then none else some tok
    else none
  | [] => none

/-- `re.search` for `LABEL\s*[sep]\s*(\S+)` with an ordered label alternation,
case-insensitive, scanning left to right. -/
def searchLabelTok (labels : List Str) (seps : List Char) : Str → Option Str
  | [] => none
  | c :: cs =>
    match labels.findSome? (fun lab =>
        if startsWithCI lab (c :: cs) then sepToken seps ((c :: cs).drop lab.length)
        else none) with
    | some t => some t
    | none => searchLabelTok labels seps cs

/-- `re.search(r'(?:State|Status)\s*[:=]\s*(\S+)', s, re.IGNORECASE)`. -/
def searchStateToken (s : Str) : Option Str :=
  searchLabelTok [str "State", str "Status"] [':', '='] s

/-- Same search but the label must start before the next newline (used for the
lazy single-line gap `.*?` in the embedded CacheVault/BBU patterns). -/
def searchStateTokSameLine : Str → Option Str
  | [] => none
  | c :: cs =>
    if c = '\n' then none
    else
      match [str "State", str "Status"].findSome? (fun lab =>
          if startsWithCI lab (c :: cs) then sepToken [':', '='] ((c :: cs).drop lab.length)
          else none) with
      | some t => some t
      | none => searchStateTokSameLine cs

/-- `re.search(r'CacheVault.*?(?:State|Status)\s*[:=]\s*(\S+)', s, re.IGNORECASE)`. -/
def searchCVEmb : Str → Option Str
  | [] => none
  | c :: cs =>
    match (if startsWithCI (str "CacheVault") (c :: cs)
           then searchStateTokSameLine ((c :: cs).drop 10) else none) with
    | some t => some t
    | none => searchCVEmb cs

/-- `re.search(r'(?:BBU|Battery).*?(?:State|Status)\s*[:=]\s*(\S+)', s, re.IGNORECASE)`. -/
def searchBBUEmb : Str → Option Str
  | [] => none
  | c :: cs =>
    match (if startsWithCI (str "BBU") (c :: cs) then searchStateTokSameLine ((c :: cs).drop 3)
           else if startsWithCI (str "Battery") (c :: cs) then
             searchStateTokSameLine ((c :: cs).drop 7)
           else none) with
    | some t => some t
    | none => searchBBUEmb cs

/-- First maximal digit run on the current line (tail of `LABEL.*?(\d+)`). -/
def firstNumOnLine : Str → Option Nat
  | [] => none
  | c :: cs =>
    if c = '\n' then none
    else if c.isDigit then some (digitsVal (c :: cs.takeWhile Char.isDigit))
    else firstNumOnLine cs

/-- `re.search(r'LABEL.*?(\d+)', s, re.IGNORECASE)` for an ordered label list. -/
def searchLabelNum (labels : List Str) : Str → Option Nat
  | [] => none
  | c :: cs =>
    match labels.findSome? (fun lab =>
        if startsWithCI lab (c :: cs) then firstNumOnLine ((c :: cs).drop lab.length)
        else none) with
    | some n => some n
    | none => searchLabelNum labels cs

/-- First digit run followed by `%` on the current line (tail of
`LABEL.*?(\d+)%`); a run not followed by `%` cannot match at any offset. -/
def linePctScan : Str → Option Nat
  | [] => none
  | c :: cs =>
    if c = '\n' then none
    else if c.isDigit then
      let run := c :: cs.takeWhile Char.isDigit
      match cs.drop (run.length - 1) with
      | '%' :: _ => some (digitsVal run)
      | _ => linePctScan cs
    else linePctScan cs

/-- `re.search(r'LABEL.*?(\d+)%', s, re.IGNORECASE)`. -/
def searchLabelPct (labels : List Str) : Str → Option Nat
  | [] => none
  | c :: cs =>
    match labels.findSome? (fun lab =>
        if startsWithCI lab (c :: cs) then linePctScan ((c :: cs).drop lab.length)
        else none) with
    | some n => some n
    | none => searchLabelPct labels cs

/-- `re.search(r'(\d+)%', s)` over the whole text. -/
def globalPctScan : Str → Option Nat
  | [] => none
  | c :: cs =>
    if c.isDigit then
      let run := c :: cs.takeWhile Char.isDigit
      match cs.drop (run.length - 1) with
      | '%' :: _ => some (digitsVal run)
      | _ => globalPctScan cs
    else globalPctScan cs

/-- Case-insensitive occurrence of `pat` before the next newline. -/
def lineContainsCI (pat : Str) : Str → Bool
  | [] => false
  | c :: cs =>
    if c = '\n' then false
    else startsWithCI pat (c :: cs) || lineContainsCI pat cs

/-- `re.search(r'A.*B', s, re.IGNORECASE)`: `A` somewhere, `B` later on the
same line. -/
def sameLineFollows (a b : Str) : Str → Bool
  | [] => false
  | c :: cs =>
    (startsWithCI a (c :: cs) && lineContainsCI b ((c :: cs).drop a.length))
      || sameLineFollows a b cs

/-- Match `(\d+:\d+)` at the current position; returns the matched id and its
length.  The digit runs are maximal, as greedy `\d+` admits no backtracking
into `:`. -/
def pdIdAt (s : Str) : Option (Str × Nat) :=
  let d1 := s.takeWhile Char.isDigit
  if d1 = [] then none
  else
    match s.drop d1.length with
    | ':' :: r =>
      let d2 := r.takeWhile Char.isDigit
      if d2 = [] then none else some (d1 ++ ':' :: d2, d1.length + 1 + d2.length)
    | _ => none

/-- Lookahead `(?=Drive\s+\d+:\d+)` at the current position. -/
def lookaheadDrive (s : Str) : Bool :=
  startsWithCI (str "Drive") s &&
    (let r := s.drop 5
     let w := r.takeWhile isSpaceC
     !w.isEmpty && (pdIdAt (r.drop w.length)).isSome)

/-- `.*?(?=Drive\s+\d+:\d+|$)` with `re.DOTALL` and without `re.MULTILINE`:
extend minimally until the next drive header, the end of the text, or the
final trailing newline. -/
def takeSection : Str → Str
  | [] => []
  | c :: cs =>
    if lookaheadDrive (c :: cs) || (c == '\n' && cs.isEmpty) then []
    else c :: takeSection cs

/-- Match `Drive\s+DID` (case-insensitive, literal escaped id) at the current
position, returning the consumed text and the remainder. -/
def matchDriveHead (did s : Str) : Option (Str × Str) :=
  if startsWithCI (str "Drive") s then
    let r := s.drop 5
    let w := r.takeWhile isSpaceC
    if w ≠ [] ∧ (r.drop w.length).take did.length = did then
      some (s.take (5 + w.length + did.length), s.drop (5 + w.length + did.length))
    else none
  else none

def findSectionAux (did : Str) : Str → Option Str
  | [] => none
  | c :: cs =>
    match matchDriveHead did (c :: cs) with
    | some hr => some (hr.1 ++ takeSection hr.2)
    | none => findSectionAux did cs

/-- `re.search(rf'(Drive\s+{id}|^{id}).*?(?=Drive\s+\d+:\d+|$)', s,
re.IGNORECASE | re.DOTALL)`: without `re.MULTILINE` the `^` alternative only
fires at position 0. -/
def findSection (did s : Str) : Option Str :=
  match matchDriveHead did s with
  | some hr => some (hr.1 ++ takeSection hr.2)
  | none =>
    if s.take did.length = did then some (did ++ takeSection (s.drop did.length))
    else
      match s with
      | [] => none
      | _ :: cs => findSectionAux did cs

/-- Same section search without the `^{id}` alternative (SSD-wear pattern). -/
def findSectionD (did s : Str) : Option Str := findSectionAux did s

/-- `re.findall(r'(DHS|GHS)', s, re.IGNORECASE)` count: non-overlapping
matches, continuing after each match. -/
def countSparesGo : Nat → Str → Nat
  | 0, _ => 0
  | _ + 1, [] => 0
  | fuel + 1, c :: cs =>
    if startsWithCI (str "DHS") (c :: cs) || startsWithCI (str "GHS") (c :: cs) then
      1 + countSparesGo fuel (cs.drop 2)
    else countSparesGo fuel cs

def countSpares (s : Str) : Nat := countSparesGo s.length s

/-- `re.findall(r'UGood', s, re.IGNORECASE)` count. -/
def countUGoodGo : Nat → Str → Nat
  | 0, _ => 0
  | _ + 1, [] => 0
  | fuel + 1, c :: cs =>
    if startsWithCI (str "UGood") (c :: cs) then 1 + countUGoodGo fuel (cs.drop 4)
    else countUGoodGo fuel cs

def countUGood (s : Str) : Nat := countUGoodGo s.length s

/-- Maximal whitespace-separated tokens of a string. -/
def tokensOfGo : Nat → Str → List Str
  | 0, _ => []
  | fuel + 1, s =>
    match s.dropWhile isSpaceC with
    | [] => []
    | c :: cs => (c :: cs.takeWhile isNonspace) :: tokensOfGo fuel (cs.dropWhile isNonspace)

def tokensOf (s : Str) : List Str := tokensOfGo s.length s

/-- `(?:Drive\s+)?Temperature` at the current position, returning the match
length. -/
def tempHeadLen (s : Str) : Option Nat :=
  if startsWithCI (str "Drive") s then
    let w := (s.drop 5).takeWhile isSpaceC
    if w ≠ [] ∧ startsWithCI (str "Temperature") ((s.drop 5).drop w.length) then
      some (5 + w.length + 11)
    else if startsWithCI (str "Temperature") s then some 11 else none
  else if startsWithCI (str "Temperature") s then some 11 else none

/-- First maximal digit run before the next newline, with the number of
characters consumed up to the end of the run. -/
def lineNumAt : Str → Option (Nat × Nat)
  | [] => none
  | c :: cs =>
    if c = '\n' then none
    else if c.isDigit then
      let run := c :: cs.takeWhile Char.isDigit
      some (digitsVal run, run.length)
    else (lineNumAt cs).map (fun p => (p.1, p.2 + 1))

/-- `re.findall(r'(?:Drive\s+)?Temperature.*?(\d+)', s, re.IGNORECASE)`:
non-overlapping matches, resuming after each captured digit run. -/
def tempReadingsGo : Nat → Str → List Nat
  | 0, _ => []
  | _ + 1, [] => []
  | fuel + 1, c :: cs =>
    match tempHeadLen (c :: cs) with
    | some n =>
      match lineNumAt ((c :: cs).drop n) with
      | some vk => vk.1 :: tempReadingsGo fuel ((c :: cs).drop (n + vk.2))
      | none => tempReadingsGo fuel cs
    | none => tempReadingsGo fuel cs

def tempReadings (s : Str) : List Nat := tempReadingsGo s.length s

/-- Characters consumed up to the end of the first case-insensitive
occurrence of `pat`. -/
def findCIafter (pat : Str) : Str → Option Nat
  | [] => none
  | c :: cs =>
    if startsWithCI pat (c :: cs) then some pat.length
    else (findCIafter pat cs).map (· + 1)

/-- `re.finditer(r'(\d+:\d+).*?Predictive.*?Yes', s, re.IGNORECASE |
re.DOTALL)`: collect the drive ids of the non-overlapping matches. -/
def predDrivesGo : Nat → Str → List Str
  | 0, _ => []
  | _ + 1, [] => []
  | fuel + 1, c :: cs =>
    match pdIdAt (c :: cs) with
    | some il =>
      match findCIafter (str "Predictive") ((c :: cs).drop il.2) with
      | some m1 =>
        match findCIafter (str "Yes") ((c :: cs).drop (il.2 + m1)) with
        | some m2 => il.1 :: predDrivesGo fuel ((c :: cs).drop (il.2 + m1 + m2))
        | none => predDrivesGo fuel cs
      | none => predDrivesGo fuel cs
    | none => predDrivesGo fuel cs

def predDrives (s : Str) : List Str := predDrivesGo s.length s

/-- One record of the virtual-drive summary, as captured by
`^(\d+)/(\d+)\s+(RAID\S*)\s+(\S+).*?(\S+)\s*$`. -/
structure VDRec where
  c : Str
  v : Str
  raid : Str
  st : Str
  n : Str
deriving DecidableEq

/-- Shared head `^(\d+)/(\d+)\s+RAID\S*\s+` of the three virtual-drive line
patterns of the source; returns controller index, drive index, the full RAID
token and the rest of the line after the following whitespace run. -/
def parseVDHead (l : Str) : Option (Str × Str × Str × Str) :=
  let d1 := l.takeWhile Char.isDigit
  if d1 = [] then none
  else
    match l.drop d1.length with
    | '/' :: r1 =>
      let d2 := r1.takeWhile Char.isDigit
      if d2 = [] then none
      else
        let r2 := r1.drop d2.length
        if r2.takeWhile isSpaceC = [] then none
        else
          let r3 := r2.dropWhile isSpaceC
          if startsWithCS (str "RAID") r3 then
            let raidTail := (r3.drop 4).takeWhile isNonspace
            let r5 := (r3.drop 4).drop raidTail.length
            if r5.takeWhile isSpaceC = [] then none
            else some (d1, d2, str "RAID" ++ raidTail, r5.dropWhile isSpaceC)
          else none
    | _ => none

/-- One line of `^(\d+/\d+)\s+RAID\S*\s+(\S+)` (`build_perfdata`). -/
def parseVDLineB (l : Str) : Option (Str × Str) :=
  match parseVDHead l with
  | some r =>
    let tok := r.2.2.2.takeWhile isNonspace
    if tok = [] then none else some (r.1 ++ '/' :: r.2.1, tok)
  | none => none

/-- One line of `^(\d+)/(\d+)\s+RAID\S*\s+(\S+).*?(\S+)\s*$`
(`evaluate_status` / `build_long_output`).  With two or more remaining
tokens the greedy group 3 takes the first token whole and the lazy gap pushes
group 4 onto the last token; with a single remaining token of length ≥ 2 the
greedy group backtracks one character, so the state loses its last character
to the name group; a single one-character token cannot match. -/
def parseVDLineE (l : Str) : Option VDRec :=
  match parseVDHead l with
  | some r =>
    match tokensOf r.2.2.2 with
    | [] => none
    | [t] =>
      if 2 ≤ t.length then
        some { c := r.1, v := r.2.1, raid := r.2.2.1, st := t.dropLast,
               n := t.drop (t.length - 1) }
      else none
    | t :: ts =>
      match ts.getLast? with
      | some lt => some { c := r.1, v := r.2.1, raid := r.2.2.1, st := t, n := lt }
      | none => none
  | none => none

def parseVDLinesB (t : Str) : List (Str × Str) := (splitLines t).filterMap parseVDLineB

def parseVDLinesE (t : Str) : List VDRec := (splitLines t).filterMap parseVDLineE

/-- One line of `^(\d+:\d+)\s+\d+\s+(\S+)` (`build_perfdata`). -/
def parsePDLineB (l : Str) : Option (Str × Str) :=
  match pdIdAt l with
  | some il =>
    let r := l.drop il.2
    if r.takeWhile isSpaceC = [] then none
    else
      let r1 := r.dropWhile isSpaceC
      let d3 := r1.takeWhile Char.isDigit
      if d3 = [] then none
      else
        let r2 := r1.drop d3.length
        if r2.takeWhile isSpaceC = [] then none
        else
          let tok := (r2.dropWhile isSpaceC).takeWhile isNonspace
          if tok = [] then none else some (il.1, tok)
  | none => none

def parsePDLinesB (t : Str) : List (Str × Str) := (splitLines t).filterMap parsePDLineB

/-- `re.findall(r'^(\d+:\d+)', s, re.MULTILINE)`. -/
def pdIdList (t : Str) : List Str :=
  (splitLines t).filterMap (fun l => (pdIdAt l).map (·.1))

/-- `re.findall(r'^(\d+:\d+).*SSD', s, re.MULTILINE | re.IGNORECASE)`. -/
def ssdIdList (t : Str) : List Str :=
  (splitLines t).filterMap (fun l =>
    match pdIdAt l with
    | some il => if containsCI (str "SSD") (l.drop il.2) then some il.1 else none
    | none => none)

-- Nagios exit codes

def STATE_OK : Nat := 0
def STATE_WARNING : Nat := 1
def STATE_CRITICAL : Nat := 2
def STATE_UNKNOWN : Nat := 3

-- Default thresholds

def TEMP_WARN : Nat := 50
def TEMP_CRIT : Nat := 60
def SSD_WEAR_WARN : Nat := 20
def SSD_WEAR_CRIT : Nat := 10
def MEDIA_ERROR_WARN : Nat := 1
def MEDIA_ERROR_CRIT : Nat := 10
def OTHER_ERROR_WARN : Nat := 1

/-- Container for RAID status data (`RaidStatus`). -/
structure RaidStatus where
  vd_total : Nat
  vd_ok : Nat
  vd_warn : Nat
  vd_crit : Nat
  pd_total : Nat
  pd_ok : Nat
  pd_warn : Nat
  pd_crit : Nat
  spare_count : Nat
  max_temp : Nat
  media_errors : Nat
  other_errors : Nat
  ctrl_status : Str
  battery_status : Str
  hotspare_status : Str
  rebuild_status : Str
  cc_status : Str
  patrol_status : Str
  warnings : List Str
  critical_warnings : List Str
  long_output : List Str
deriving DecidableEq

/-- A freshly constructed `RaidStatus()`. -/
def initStatus : RaidStatus :=
  { vd_total := 0, vd_ok := 0, vd_warn := 0, vd_crit := 0,
    pd_total := 0, pd_ok := 0, pd_warn := 0, pd_crit := 0,
    spare_count := 0, max_temp := 0, media_errors := 0, other_errors := 0,
    ctrl_status := [], battery_status := [], hotspare_status := [],
    rebuild_status := [], cc_status := [], patrol_status := [],
    warnings := [], critical_warnings := [], long_output := [] }

/-- The configuration surface of one evaluation run: the environment toggles
`ENABLE_PERFDATA`, `ENABLE_LONG_OUTPUT`, `SHOW_HOST`, `TERSE_OUTPUT`, the
`-v` virtual-drive filter, the host and the controller index. -/
structure Config where
  enablePerfdata : Bool
  enableLongOutput : Bool
  showHost : Bool
  terse : Bool
  vdNum : Option Str
  host : Str
  controller : Str
deriving DecidableEq

/-- The raw text returned by each storcli command the checker issues; one
field per distinct command of `check_all` and the individual checks. -/
structure Bundle where
  vdShow : Str
  pdShow : Str
  ctrlShow : Str
  cvStatus : Str
  cvBasic : Str
  cvAll : Str
  bbuStatus : Str
  bbuBasic : Str
  bbuAll : Str
  ctrlShowI : Str
  ctrlShowAllI : Str
  fallShow : Str
  pdShowAll : Str
  rebuildShow : Str
  ccShow : Str
  patrolShow : Str
deriving DecidableEq

/-- `translate_status`. -/
def translate_status (s : Str) : Str :=
  if s = str "Optl" then str "Optimal"
  else if s = str "Dgrd" then str "Degraded"
  else if s = str "Rbld" then str "Rebuilding"
  else if s = str "Offln" then str "Offline"
  else if s = str "OfLn" then str "Offline"
  else if s = str "Pdgd" then str "Partially Degraded"
  else if s = str "Rec" then str "Recovering"
  else if s = str "Failed" then str "Failed"
  else if s = str "Msng" then str "Missing"
  else if s = str "Onln" then str "Online"
  else if s = str "UBad" then str "Unconfigured Bad"
  else s

/-- `check_controller_health`. -/
def check_controller_health (b : Bundle) (s : RaidStatus) : RaidStatus :=
  match searchLabelTok [str "Controller Status"] [':'] b.ctrlShow with
  | some state =>
    if startsWithCI (str "Optimal") state || startsWithCI (str "OK") state
        || startsWithCI (str "Good") state then
      { s with ctrl_status := str "Controller:OK" }
    else
      { s with ctrl_status := str "Controller:" ++ state,
               warnings := s.warnings ++ [str "Controller status: " ++ state] }
  | none => s

/-- `re.match(r'(Optimal|Good)', state, re.IGNORECASE)`: the good-token test of
the CacheVault branch of `check_battery`. -/
def goodCV (state : Str) : Bool :=
  startsWithCI (str "Optimal") state || startsWithCI (str "Good") state

/-- `re.match(r'(Optimal|Good|OK)', state, re.IGNORECASE)`: the good-token test
of the BBU branch of `check_battery`. -/
def goodBBU (state : Str) : Bool :=
  startsWithCI (str "Optimal") state || startsWithCI (str "Good") state
    || startsWithCI (str "OK") state

/-- One command variant of `check_battery`: an output containing "unsupported
command" is treated as having no match at all. -/
def resolveVariant (out : Str) : Option Str :=
  if containsCI (str "unsupported command") out then none else searchStateToken out

/-- The CacheVault fallback chain of `check_battery`: status, basic, all, then
the token embedded in the controller summary. -/
def cvResolve (b : Bundle) : Option Str :=
  match resolveVariant b.cvStatus with
  | some t => some t
  | none =>
    match resolveVariant b.cvBasic with
    | some t => some t
    | none =>
      match resolveVariant b.cvAll with
      | some t => some t
      | none => searchCVEmb b.ctrlShowI

/-- The BBU fallback chain of `check_battery`. -/
def bbuResolve (b : Bundle) : Option Str :=
  match resolveVariant b.bbuStatus with
  | some t => some t
  | none =>
    match resolveVariant b.bbuBasic with
    | some t => some t
    | none =>
      match resolveVariant b.bbuAll with
      | some t => some t
      | none => searchBBUEmb b.ctrlShowI

/-- The Energy-Pack fallback at the end of `check_battery`, reached only when
neither chain produced a battery status. -/
def energyPackCheck (b : Bundle) (s : RaidStatus) : RaidStatus :=
  let present_val := (searchLabelTok [str "Energy Pack"] ['='] b.ctrlShowAllI).getD []
  let status_val := (searchLabelTok [str "Energy Pack Status"] ['='] b.ctrlShowAllI).getD []
  if present_val ≠ [] ∨ status_val ≠ [] then
    if startsWithCI (str "Present") present_val || startsWithCI (str "Yes") present_val then
      if status_val = [] ∨ status_val = str "0"
          ∨ (startsWithCI (str "OK") status_val || startsWithCI (str "Optimal") status_val
              || startsWithCI (str "Good") status_val) then
        { s with battery_status := str "Cache:OK Battery:OK" }
      else
        { s with battery_status := str "Cache:EP" ++ status_val ++ str " Battery:EP" ++ status_val,
                 warnings := s.warnings ++ [str "Energy Pack status " ++ status_val] }
    else if startsWithCI (str "Absent") present_val || startsWithCI (str "No") present_val then
      { s with warnings := s.warnings ++ [str "Energy Pack Absent"] }
    else s
  else s

/-- `check_battery`. -/
def check_battery (b : Bundle) (s : RaidStatus) : RaidStatus :=
  let s1 : RaidStatus :=
    match cvResolve b with
    | some state =>
      if goodCV state then { s with battery_status := str "CV:OK" }
      else
        let s' := { s with battery_status := str "CV:" ++ state }
        if goodCV state then s'
        else { s' with warnings := s'.warnings ++ [str "CacheVault " ++ state] }
    | none => s
  let s2 : RaidStatus :=
    match bbuResolve b with
    | some state =>
      let bbu_status := if goodBBU state then str "BBU:OK" else str "BBU:" ++ state
      let s' := if goodBBU state then s1
                else { s1 with warnings := s1.warnings ++ [str "BBU " ++ state] }
      if s'.battery_status ≠ [] then
        { s' with battery_status := s'.battery_status ++ str " " ++ bbu_status }
      else { s' with battery_status := bbu_status }
    | none => s1
  if s2.battery_status = [] then energyPackCheck b s2 else s2

/-- `check_foreign_config`. -/
def check_foreign_config (b : Bundle) (s : RaidStatus) : RaidStatus :=
  if containsCI (str "foreign configuration") b.fallShow || containsCI (str "DG") b.fallShow then
    let foreign_count :=
      ((splitLines b.fallShow).filter (fun l =>
        match l with
        | c :: _ => c.isDigit
        | [] => false)).length
    if 0 < foreign_count then
      { s with warnings := s.warnings
          ++ [str "Foreign config detected (" ++ natStr foreign_count ++ str ")"] }
    else s
  else s

/-- `check_predictive_failure`. -/
def check_predictive_failure (b : Bundle) (s : RaidStatus) : RaidStatus :=
  if sameLineFollows (str "Predictive") (str "Yes") b.pdShowAll then
    let pred_drives := predDrives b.pdShowAll
    if pred_drives ≠ [] then
      { s with warnings := s.warnings
          ++ [str "Predictive failure on: " ++ joinSep (str ", ") pred_drives] }
    else s
  else s

/-- The Media-Error block of `check_smart_data` for one drive section. -/
def mediaStep (drive sec : Str) (s : RaidStatus) : RaidStatus :=
  match searchLabelNum [str "Media Error"] sec with
  | some count =>
    if 0 < count then
      let s' := { s with media_errors := s.media_errors + count }
      if MEDIA_ERROR_CRIT ≤ count then
        { s' with critical_warnings := s'.critical_warnings
            ++ [str "Drive " ++ drive ++ str ": " ++ natStr count ++ str " media errors"] }
      else if MEDIA_ERROR_WARN ≤ count then
        { s' with warnings := s'.warnings
            ++ [str "Drive " ++ drive ++ str ": " ++ natStr count ++ str " media errors"] }
      else s'
    else s
  | none => s

/-- The Other-Error block of `check_smart_data` for one drive section. -/
def otherStep (drive sec : Str) (s : RaidStatus) : RaidStatus :=
  match searchLabelNum [str "Other Error"] sec with
  | some count =>
    if 0 < count then
      let s' := { s with other_errors := s.other_errors + count }
      if OTHER_ERROR_WARN ≤ count then
        { s' with warnings := s'.warnings
            ++ [str "Drive " ++ drive ++ str ": " ++ natStr count ++ str " other errors"] }
      else s'
    else s
  | none => s

/-- The Shield-Counter block of `check_smart_data` for one drive section. -/
def shieldStep (drive sec : Str) (s : RaidStatus) : RaidStatus :=
  match searchLabelNum [str "Shield Counter"] sec with
  | some count =>
    if 0 < count then
      { s with warnings := s.warnings
          ++ [str "Drive " ++ drive ++ str ": " ++ natStr count ++ str " shield errors"] }
    else s
  | none => s

/-- The BBM-Error block of `check_smart_data` for one drive section. -/
def bbmStep (drive sec : Str) (s : RaidStatus) : RaidStatus :=
  match searchLabelNum [str "BBM Error"] sec with
  | some count =>
    if 0 < count then
      { s with warnings := s.warnings
          ++ [str "Drive " ++ drive ++ str ": " ++ natStr count ++ str " BBM errors"] }
    else s
  | none => s

/-- The per-drive body of `check_smart_data`'s loop. -/
def smartStep (drive sec : Str) (s : RaidStatus) : RaidStatus :=
  bbmStep drive sec (shieldStep drive sec (otherStep drive sec (mediaStep drive sec s)))

/-- `check_smart_data`. -/
def check_smart_data (b : Bundle) (s : RaidStatus) : RaidStatus :=
  (pdIdList b.pdShow).foldl (fun st d =>
    match findSection d b.pdShowAll with
    | some sec => smartStep d sec st
    | none => st) s

/-- `check_rebuild_progress`. -/
def check_rebuild_progress (b : Bundle) (s : RaidStatus) : RaidStatus :=
  if containsSub (str " Rbld ") b.vdShow then
    match searchLabelPct [str "Progress"] b.rebuildShow with
    | some n => { s with rebuild_status := str "Rebuild:" ++ natStr n ++ str "%" }
    | none => { s with rebuild_status := str "Rebuild:InProgress" }
  else s

/-- `check_consistency_check`. -/
def check_consistency_check (b : Bundle) (s : RaidStatus) : RaidStatus :=
  if (globalPctScan b.ccShow).isSome || containsCI (str "in progress") b.ccShow then
    match globalPctScan b.ccShow with
    | some n => { s with cc_status := str "CC:" ++ natStr n ++ str "%" }
    | none => { s with cc_status := str "CC:Running" }
  else s

/-- The threshold classification of `check_ssd_wear` for one extracted
remaining-life percentage. -/
def ssdWearStep (drive : Str) (remaining : Nat) (s : RaidStatus) : RaidStatus :=
  if remaining ≤ SSD_WEAR_CRIT then
    { s with critical_warnings := s.critical_warnings
        ++ [str "SSD " ++ drive ++ str " wear critical (" ++ natStr remaining ++ str "% left)"] }
  else if remaining ≤ SSD_WEAR_WARN then
    { s with warnings := s.warnings
        ++ [str "SSD " ++ drive ++ str " wear warning (" ++ natStr remaining ++ str "% left)"] }
  else s

/-- `check_ssd_wear`. -/
def check_ssd_wear (b : Bundle) (s : RaidStatus) : RaidStatus :=
  (ssdIdList b.pdShow).foldl (fun st d =>
    match findSectionD d b.pdShowAll with
    | some sec =>
      match searchLabelNum [str "Life Left", str "Wear", str "Wearout"] sec with
      | some remaining => ssdWearStep d remaining st
      | none => st
    | none => st) s

/-- The threshold comparison of `check_drive_temperature` for one valid
reading, applied after the max-temperature update. -/
def tempClassify (t : Nat) (s' : RaidStatus) : RaidStatus :=
  if TEMP_CRIT ≤ t then
    { s' with critical_warnings := s'.critical_warnings
        ++ [str "Drive overheating (" ++ natStr t ++ str "C)"] }
  else if TEMP_WARN ≤ t then
    { s' with warnings := s'.warnings
        ++ [str "Drive temperature high (" ++ natStr t ++ str "C)"] }
  else s'

/-- The per-reading body of `check_drive_temperature`'s loop. -/
def tempStep (t : Nat) (s : RaidStatus) : RaidStatus :=
  if 0 < t ∧ t < 100 then
    tempClassify t (if s.max_temp < t then { s with max_temp := t } else s)
  else s

/-- `check_drive_temperature`. -/
def check_drive_temperature (b : Bundle) (s : RaidStatus) : RaidStatus :=
  (tempReadings b.pdShowAll).foldl (fun st t => tempStep t st) s

/-- `check_patrol_read`. -/
def check_patrol_read (b : Bundle) (s : RaidStatus) : RaidStatus :=
  match searchLabelTok [str "State"] [':'] b.patrolShow with
  | some state =>
    if startsWithCI (str "Active") state || startsWithCI (str "Running") state then
      match searchLabelPct [str "Progress"] b.patrolShow with
      | some n => { s with patrol_status := str "PR:" ++ natStr n ++ str "%" }
      | none => { s with patrol_status := str "PR:Running" }
    else if startsWithCI (str "Stopped") state || startsWithCI (str "Paused") state then
      { s with patrol_status := str "PR:Stopped" }
    else s
  | none => s

/-- `check_hotspare`. -/
def check_hotspare (b : Bundle) (s : RaidStatus) : RaidStatus :=
  let spare_ok := countSpares b.pdShow
  let ugood_count := countUGood b.pdShow
  let pd_total := if s.pd_total ≠ 0 then s.pd_total else (pdIdList b.pdShow).length
  let s0 := { s with spare_count := spare_ok }
  if 0 < spare_ok then { s0 with hotspare_status := str "Spares:" ++ natStr spare_ok }
  else if 0 < ugood_count then { s0 with hotspare_status := str "UGood:" ++ natStr ugood_count }
  else
    let s1 := { s0 with hotspare_status := str "Spares:0" }
    if 2 < pd_total then { s1 with warnings := s1.warnings ++ [str "No hot spares configured"] }
    else s1

/-- The virtual-drive bucket classification of `build_perfdata`. -/
def vdStep (s : RaidStatus) (p : Str × Str) : RaidStatus :=
  if p.2 = str "Optl" then { s with vd_ok := s.vd_ok + 1 }
  else if p.2 = str "Rbld" ∨ p.2 = str "Pdgd" then { s with vd_warn := s.vd_warn + 1 }
  else { s with vd_crit := s.vd_crit + 1 }

/-- The physical-drive bucket classification of `build_perfdata`; note that a
state outside the five listed tokens falls into no bucket. -/
def pdStep (s : RaidStatus) (p : Str × Str) : RaidStatus :=
  if p.2 = str "Onln" then { s with pd_ok := s.pd_ok + 1 }
  else if p.2 = str "Rbld" then { s with pd_warn := s.pd_warn + 1 }
  else if p.2 = str "Offln" ∨ p.2 = str "Failed" ∨ p.2 = str "UBad" ∨ p.2 = str "Msng" then
    { s with pd_crit := s.pd_crit + 1 }
  else s

/-- `build_perfdata`. -/
def build_perfdata (b : Bundle) (s : RaidStatus) : RaidStatus :=
  let vds := parseVDLinesB b.vdShow
  let s1 := { s with vd_total := vds.length }
  let s2 := vds.foldl vdStep s1
  let pds := parsePDLinesB b.pdShow
  let s3 := { s2 with pd_total := pds.length }
  pds.foldl pdStep s3

/-- `build_long_output`. -/
def build_long_output (b : Bundle) (s : RaidStatus) : RaidStatus :=
  let lo := [str "--- Virtual Drives ---"]
  let lo := lo ++ (parseVDLinesE b.vdShow).map (fun r =>
    str "VD" ++ r.c ++ str "/" ++ r.v ++ str ": " ++ r.raid ++ str " " ++ r.st
      ++ str " (" ++ r.n ++ str ")")
  let lo := lo ++ [[], str "--- Status ---"]
  let lo := lo ++ (if s.ctrl_status ≠ [] then [str "Controller: " ++ s.ctrl_status] else [])
  let lo := lo ++ (if s.battery_status ≠ [] then [str "Battery: " ++ s.battery_status] else [])
  let lo := lo ++ (if s.hotspare_status ≠ [] then [str "Hot Spares: " ++ s.hotspare_status] else [])
  let lo := lo ++ (if s.patrol_status ≠ [] then [str "Patrol Read: " ++ s.patrol_status] else [])
  let lo := lo ++ (if s.cc_status ≠ [] then [str "Consistency Check: " ++ s.cc_status] else [])
  let lo := lo ++ (if s.rebuild_status ≠ [] then [str "Rebuild: " ++ s.rebuild_status] else [])
  let lo := lo ++ (if 0 < s.max_temp then [str "Max Temperature: " ++ natStr s.max_temp ++ str "C"] else [])
  let lo := lo ++ (if 0 < s.media_errors then [str "Total Media Errors: " ++ natStr s.media_errors] else [])
  let lo := lo ++ (if 0 < s.other_errors then [str "Total Other Errors: " ++ natStr s.other_errors] else [])
  { s with long_output := s.long_output ++ lo }

/-- The perfdata block of `evaluate_status`. -/
def perfdataStr (s : RaidStatus) : Str :=
  str "| vd_total=" ++ natStr s.vd_total ++ str " vd_ok=" ++ natStr s.vd_ok
    ++ str " vd_warn=" ++ natStr s.vd_warn ++ str " vd_crit=" ++ natStr s.vd_crit
    ++ str " pd_total=" ++ natStr s.pd_total ++ str " pd_ok=" ++ natStr s.pd_ok
    ++ str " pd_warn=" ++ natStr s.pd_warn ++ str " pd_crit=" ++ natStr s.pd_crit
    ++ str " spares=" ++ natStr s.spare_count ++ str " max_temp=" ++ natStr s.max_temp
    ++ str "C media_errors=" ++ natStr s.media_errors
    ++ str " other_errors=" ++ natStr s.other_errors

/-- The `host_suffix + perf_suffix + long_out` tail appended to every message
of `evaluate_status` except the not-found one. -/
def suffixOf (cfg : Config) (s : RaidStatus) : Str :=
  (if cfg.showHost then str " - " ++ cfg.host else [])
    ++ (if cfg.enablePerfdata then str " " ++ perfdataStr s else [])
    ++ (if cfg.enableLongOutput ∧ s.long_output ≠ [] then
          str "\n" ++ joinSep (str "\n") s.long_output
        else [])

/-- `", ".join(f"VD{v}:Optimal" ...)` over the (possibly filtered) records. -/
def vdInfoStr (l : List VDRec) : Str :=
  joinSep (str ", ") (l.map (fun r => str "VD" ++ r.v ++ str ":Optimal"))

/-- The body of `evaluate_status` after the not-found early return: `vd_lines`
is the record list that survived the optional filter. -/
def evaluateRest (cfg : Config) (s : RaidStatus) (suffix : Str) (vd_lines : List VDRec) :
    Nat × Str :=
  match vd_lines.filter (fun r => r.st != str "Optl") with
  | r :: _ =>
    let readable := translate_status r.st
    let rebuild_info := if s.rebuild_status ≠ [] then str " [" ++ s.rebuild_status ++ str "]" else []
    if r.st = str "Rbld" ∨ r.st = str "Pdgd" then
      let msg :=
        if cfg.terse then str "RAID WARNING (MegaRAID) - " ++ (str "VD" ++ r.v) ++ (str " " ++ readable)
        else str "RAID WARNING (MegaRAID) - " ++ (str "VD" ++ r.v)
          ++ (str " (" ++ r.n ++ str ") Status: " ++ readable ++ rebuild_info)
      (STATE_WARNING, msg ++ suffix)
    else
      let msg :=
        if cfg.terse then str "RAID CRITICAL (MegaRAID) - " ++ (str "VD" ++ r.v) ++ (str " " ++ readable)
        else str "RAID CRITICAL (MegaRAID) - " ++ (str "VD" ++ r.v)
          ++ (str " (" ++ r.n ++ str ") Status: " ++ readable)
      (STATE_CRITICAL, msg ++ suffix)
  | [] =>
    if s.critical_warnings ≠ [] then
      let crit_msg := joinSep (str "; ") s.critical_warnings
      let msg :=
        if cfg.terse then str "RAID CRITICAL (MegaRAID) - " ++ crit_msg
        else str "RAID CRITICAL (MegaRAID) - VDs Optimal but: " ++ crit_msg
          ++ (str " (" ++ vdInfoStr vd_lines ++ str ")")
      (STATE_CRITICAL, msg ++ suffix)
    else if s.warnings ≠ [] then
      let warn_msg := joinSep (str "; ") s.warnings
      let msg :=
        if cfg.terse then str "RAID WARNING (MegaRAID) - " ++ warn_msg
        else str "RAID WARNING (MegaRAID) - VDs Optimal but: " ++ warn_msg
          ++ (str " (" ++ vdInfoStr vd_lines ++ str ")")
      (STATE_WARNING, msg ++ suffix)
    else
      let extra :=
        (if s.battery_status ≠ [] then [s.battery_status] else [])
          ++ (if s.ctrl_status ≠ [] then [s.ctrl_status] else [])
          ++ (if s.hotspare_status ≠ [] then [s.hotspare_status] else [])
          ++ (if s.cc_status ≠ [] then [s.cc_status] else [])
          ++ (if s.patrol_status ≠ [] then [s.patrol_status] else [])
          ++ (if 0 < s.max_temp then [str "Temp:" ++ natStr s.max_temp ++ str "C"] else [])
      let extra_str := if extra ≠ [] then str " " ++ joinSep (str " ") extra else []
      let msg :=
        if cfg.terse then
          match cfg.vdNum with
          | some v => str "RAID OK (MegaRAID) - VD" ++ v ++ str " Optimal"
          | none => str "RAID OK (MegaRAID)"
        else
          match cfg.vdNum with
          | some v => str "RAID OK (MegaRAID) - VD" ++ v ++ str " Status: Optimal" ++ extra_str
          | none => str "RAID OK (MegaRAID) - All " ++ natStr s.vd_total
              ++ str " Virtual Drives Optimal (" ++ vdInfoStr vd_lines ++ str ")" ++ extra_str
      (STATE_OK, msg ++ suffix)

/-- `evaluate_status`. -/
def evaluate_status (cfg : Config) (vdOutput : Str) (s : RaidStatus) : Nat × Str :=
  let suffix := suffixOf cfg s
  match cfg.vdNum with
  | some v =>
    let vd_lines := (parseVDLinesE vdOutput).filter (fun r => r.v == v)
    if vd_lines = [] then
      (STATE_CRITICAL, str "RAID CRITICAL - Virtual Drive " ++ v ++ str " not found")
    else evaluateRest cfg s suffix vd_lines
  | none => evaluateRest cfg s suffix (parseVDLinesE vdOutput)

/-- The record list `evaluate_status` judges: the parsed virtual-drive summary
after the optional `-v` filter. -/
def filteredVD (cfg : Config) (vdOutput : Str) : List VDRec :=
  match cfg.vdNum with
  | some v => (parseVDLinesE vdOutput).filter (fun r => r.v == v)
  | none => parseVDLinesE vdOutput

/-- The sequence of checks `check_all` runs before evaluating, starting from a
fresh `RaidStatus`. -/
def preStatus (b : Bundle) : RaidStatus :=
  check_hotspare b (check_patrol_read b (check_drive_temperature b (check_ssd_wear b
    (check_consistency_check b (check_rebuild_progress b (check_smart_data b
      (check_predictive_failure b (check_foreign_config b (check_battery b
        (check_controller_health b initStatus))))))))))

/-- The full accumulator state `check_all` hands to `evaluate_status`. -/
def runChecks (cfg : Config) (b : Bundle) : RaidStatus :=
  let s := build_perfdata b (preStatus b)
  if cfg.enableLongOutput then build_long_output b s else s

/-- `check_all`: run every check over the fetched bundle, then evaluate. -/
def check_all (cfg : Config) (b : Bundle) : Nat × Str :=
  evaluate_status cfg b.vdShow (runChecks cfg b)

-- Helper lemmas about substring containment

theorem startsWithCS_append (p t : Str) : startsWithCS p (p ++ t) = true := by
  induction p with
  | nil => rfl
  | cons a ps ih => simp [startsWithCS, ih]

theorem containsSub_of_starts (p s : Str) (h : startsWithCS p s = true) :
    containsSub p s = true := by
  cases s with
  | nil =>
    cases p with
    | nil => rfl
    | cons a l => simp [startsWithCS] at h
  | cons c cs => simp [containsSub, h]

theorem containsSub_append_left (a p s : Str) (h : containsSub p s = true) :
    containsSub p (a ++ s) = true := by
  induction a with
  | nil => simpa using h
  | cons x xs ih => simp [containsSub, ih]

theorem containsSub_mid (a p t : Str) : containsSub p (a ++ (p ++ t)) = true :=
  containsSub_append_left a p (p ++ t)
    (containsSub_of_starts p (p ++ t) (startsWithCS_append p t))

theorem containsSub_mid3 (a p u : Str) : containsSub p ((a ++ p) ++ u) = true := by
  have h : (a ++ p) ++ u = a ++ (p ++ u) := by simp
  rw [h]; exact containsSub_mid a p u

theorem containsSub_mid4 (a p t u : Str) : containsSub p ((a ++ (p ++ t)) ++ u) = true := by
  have h : (a ++ (p ++ t)) ++ u = a ++ (p ++ (t ++ u)) := by simp
  rw [h]; exact containsSub_mid a p (t ++ u)

-- Shared concrete fixtures for witnesses

def emptyBundle : Bundle :=
  { vdShow := [], pdShow := [], ctrlShow := [], cvStatus := [], cvBasic := [], cvAll := [],
    bbuStatus := [], bbuBasic := [], bbuAll := [], ctrlShowI := [], ctrlShowAllI := [],
    fallShow := [], pdShowAll := [], rebuildShow := [], ccShow := [], patrolShow := [] }

def cfgDefault : Config :=
  { enablePerfdata := false, enableLongOutput := false, showHost := false, terse := true,
    vdNum := none, host := [], controller := str "0" }

/-- C5: a solid-state drive whose extracted remaining-life percentage equals
the warning threshold gets exactly one WARNING finding, one at or below the
critical threshold gets exactly one CRITICAL finding, one above the warning
threshold gets no finding, and no value produces both findings. -/
theorem C5_ssd_wear_thresholds (d : Str) (r : Nat) (s : RaidStatus) :
    (r = SSD_WEAR_WARN →
      (ssdWearStep d r s).warnings = s.warnings
          ++ [str "SSD " ++ d ++ str " wear warning (" ++ natStr r ++ str "% left)"] ∧
      (ssdWearStep d r s).critical_warnings = s.critical_warnings) ∧
    (r ≤ SSD_WEAR_CRIT →
      (ssdWearStep d r s).critical_warnings = s.critical_warnings
          ++ [str "SSD " ++ d ++ str " wear critical (" ++ natStr r ++ str "% left)"] ∧
      (ssdWearStep d r s).warnings = s.warnings) ∧
    (SSD_WEAR_WARN < r → ssdWearStep d r s = s) ∧
    ((ssdWearStep d r s).warnings = s.warnings ∨
      (ssdWearStep d r s).critical_warnings = s.critical_warnings) := by
  refine ⟨fun h => ?_, fun h => ?_, fun h => ?_, ?_⟩
  · subst h
    simp [ssdWearStep, SSD_WEAR_WARN, SSD_WEAR_CRIT]
  · unfold ssdWearStep
    rw [if_pos h]
    exact ⟨rfl, rfl⟩
  · unfold ssdWearStep
    rw [if_neg (by simp [SSD_WEAR_WARN, SSD_WEAR_CRIT] at h ⊢; omega),
      if_neg (by simp [SSD_WEAR_WARN, SSD_WEAR_CRIT] at h ⊢; omega)]
  · unfold ssdWearStep
    split
    · exact Or.inl rfl
    · split
      · exact Or.inr rfl
      · exact Or.inl rfl

theorem C5_witness :
    (ssdWearStep (str "0:1") 20 initStatus).warnings
        = [str "SSD " ++ str "0:1" ++ str " wear warning (" ++ natStr 20 ++ str "% left)"] ∧
    (ssdWearStep (str "0:2") 10 initStatus).critical_warnings
        = [str "SSD " ++ str "0:2" ++ str " wear critical (" ++ natStr 10 ++ str "% left)"] ∧
    ssdWearStep (str "0:3") 21 initStatus = initStatus := by
  refine ⟨?_, ?_, ?_⟩
  · have h := (C5_ssd_wear_thresholds (str "0:1") 20 initStatus).1 rfl
    simpa [initStatus] using h.1
  · have h := (C5_ssd_wear_thresholds (str "0:2") 10 initStatus).2.1 (by decide)
    simpa [initStatus] using h.1
  · exact (C5_ssd_wear_thresholds (str "0:3") 21 initStatus).2.2.1 (by decide)

theorem tempClassify_max (t : Nat) (s : RaidStatus) :
    (tempClassify t s).max_temp = s.max_temp := by
  unfold tempClassify
  split_ifs <;> rfl

theorem tempClassify_warn (t : Nat) (s : RaidStatus) (h1 : TEMP_WARN ≤ t) (h2 : t < TEMP_CRIT) :
    (tempClassify t s).warnings
        = s.warnings ++ [str "Drive temperature high (" ++ natStr t ++ str "C)"] ∧
    (tempClassify t s).critical_warnings = s.critical_warnings := by
  unfold tempClassify
  rw [if_neg (by omega), if_pos h1]
  exact ⟨rfl, rfl⟩

theorem tempClassify_crit (t : Nat) (s : RaidStatus) (h : TEMP_CRIT ≤ t) :
    (tempClassify t s).critical_warnings
        = s.critical_warnings ++ [str "Drive overheating (" ++ natStr t ++ str "C)"] ∧
    (tempClassify t s).warnings = s.warnings := by
  unfold tempClassify
  rw [if_pos h]
  exact ⟨rfl, rfl⟩

theorem tempStep_max (t : Nat) (s : RaidStatus) :
    (tempStep t s).max_temp
      = if 0 < t ∧ t < 100 then Nat.max s.max_temp t else s.max_temp := by
  unfold tempStep
  by_cases h : 0 < t ∧ t < 100
  · rw [if_pos h, if_pos h, tempClassify_max]
    rcases Nat.lt_or_ge s.max_temp t with h2 | h2
    · rw [if_pos h2]
      exact (Nat.max_eq_right (Nat.le_of_lt h2)).symm
    · rw [if_neg (Nat.not_lt.mpr h2)]
      exact (Nat.max_eq_left h2).symm
  · rw [if_neg h, if_neg h]

theorem temp_fold_max (ts : List Nat) :
    ∀ s : RaidStatus, ((ts.foldl (fun st t => tempStep t st) s)).max_temp
      = ((ts.filter (fun t => decide (0 < t ∧ t < 100))).foldl Nat.max s.max_temp) := by
  induction ts with
  | nil => intro s; rfl
  | cons t ts ih =>
    intro s
    rw [List.foldl_cons, ih, List.filter_cons]
    by_cases h : 0 < t ∧ t < 100
    · rw [if_pos (by simpa using h), List.foldl_cons]
      have hm := tempStep_max t s
      rw [if_pos h] at hm
      rw [hm]
    · rw [if_neg (by simpa using h)]
      have hm := tempStep_max t s
      rw [if_neg h] at hm
      rw [hm]

/-- C7: temperature readings of 0 or of 100 and above are discarded without
any finding or metric update; among the valid readings the maximum is
recorded as the max-temperature metric; a valid reading at or above the
critical threshold yields one CRITICAL finding and one at or above the
warning threshold but below the critical threshold yields one WARNING
finding. -/
theorem C7_temperature (b : Bundle) (s : RaidStatus) :
    (∀ t s0, (t = 0 ∨ 100 ≤ t) → tempStep t s0 = s0) ∧
    (check_drive_temperature b s).max_temp
        = ((tempReadings b.pdShowAll).filter
            (fun t => decide (0 < t ∧ t < 100))).foldl Nat.max s.max_temp ∧
    (∀ t s0, 0 < t → t < 100 → TEMP_CRIT ≤ t →
      (tempStep t s0).critical_warnings = s0.critical_warnings
          ++ [str "Drive overheating (" ++ natStr t ++ str "C)"] ∧
      (tempStep t s0).warnings = s0.warnings) ∧
    (∀ t s0, 0 < t → t < 100 → TEMP_WARN ≤ t → t < TEMP_CRIT →
      (tempStep t s0).warnings = s0.warnings
          ++ [str "Drive temperature high (" ++ natStr t ++ str "C)"] ∧
      (tempStep t s0).critical_warnings = s0.critical_warnings) := by
  refine ⟨?_, ?_, ?_, ?_⟩
  · intro t s0 h
    unfold tempStep
    rw [if_neg (by omega)]
  · exact temp_fold_max (tempReadings b.pdShowAll) s
  · intro t s0 h1 h2 h3
    unfold tempStep
    rw [if_pos ⟨h1, h2⟩]
    have hc := tempClassify_crit t (if s0.max_temp < t then { s0 with max_temp := t } else s0) h3
    have hp : (if s0.max_temp < t then { s0 with max_temp := t } else s0).critical_warnings
          = s0.critical_warnings ∧
        (if s0.max_temp < t then { s0 with max_temp := t } else s0).warnings = s0.warnings := by
      split <;> exact ⟨rfl, rfl⟩
    exact ⟨by rw [hc.1, hp.1], by rw [hc.2, hp.2]⟩
  · intro t s0 h1 h2 h3 h4
    unfold tempStep
    rw [if_pos ⟨h1, h2⟩]
    have hc := tempClassify_warn t (if s0.max_temp < t then { s0 with max_temp := t } else s0)
      h3 h4
    have hp : (if s0.max_temp < t then { s0 with max_temp := t } else s0).critical_warnings
          = s0.critical_warnings ∧
        (if s0.max_temp < t then { s0 with max_temp := t } else s0).warnings = s0.warnings := by
      split <;> exact ⟨rfl, rfl⟩
    exact ⟨by rw [hc.1, hp.2], by rw [hc.2, hp.1]⟩

def B7 : Bundle := { emptyBundle with pdShowAll := str "Temperature = 57C\nTemperature = 101" }

theorem C7_witness :
    tempStep 100 initStatus = initStatus ∧
    tempStep 0 initStatus = initStatus ∧
    (tempStep 60 initStatus).critical_warnings
        = [str "Drive overheating (" ++ natStr 60 ++ str "C)"] ∧
    (tempStep 55 initStatus).warnings
        = [str "Drive temperature high (" ++ natStr 55 ++ str "C)"] ∧
    (check_drive_temperature B7 initStatus).max_temp = 57 := by
  refine ⟨?_, ?_, ?_, ?_, ?_⟩
  · exact (C7_temperature B7 initStatus).1 100 initStatus (Or.inr (by decide))
  · exact (C7_temperature B7 initStatus).1 0 initStatus (Or.inl rfl)
  · have h := (C7_temperature B7 initStatus).2.2.1 60 initStatus (by decide) (by decide) (by decide)
    simpa [initStatus] using h.1
  · have h := (C7_temperature B7 initStatus).2.2.2 55 initStatus (by decide) (by decide)
      (by decide) (by decide)
    simpa [initStatus] using h.1
  · have h := (C7_temperature B7 initStatus).2.1
    rw [h]
    decide

/-- C8: evaluation is a pure function of the raw text bundle and the
configuration; two runs over identical raw command outputs with the same
configuration produce the identical exit code and message, since every run
starts from a fresh `RaidStatus` and no other state exists. -/
theorem C8_deterministic (c₁ c₂ : Config) (b₁ b₂ : Bundle) (hc : c₁ = c₂) (hb : b₁ = b₂) :
    check_all c₁ b₁ = check_all c₂ b₂ := by
  rw [hc, hb]

theorem C8_witness : check_all cfgDefault emptyBundle = check_all cfgDefault emptyBundle :=
  C8_deterministic cfgDefault cfgDefault emptyBundle emptyBundle rfl rfl

/-- C10: the spares metric always equals the number of DHS/GHS tokens of the
physical-drive summary; when that count is zero but unconfigured-good drives
exist, the status string falls back to them and the missing-spare WARNING is
suppressed, yet the metric still counts only DHS/GHS tokens. -/
theorem C10_spares_metric (b : Bundle) (s : RaidStatus) :
    (check_hotspare b s).spare_count = countSpares b.pdShow ∧
    (countSpares b.pdShow = 0 → 0 < countUGood b.pdShow →
      (check_hotspare b s).hotspare_status = str "UGood:" ++ natStr (countUGood b.pdShow) ∧
      (check_hotspare b s).warnings = s.warnings) ∧
    (0 < countSpares b.pdShow →
      (check_hotspare b s).hotspare_status = str "Spares:" ++ natStr (countSpares b.pdShow) ∧
      (check_hotspare b s).warnings = s.warnings) := by
  refine ⟨?_, fun h0 hu => ?_, fun hs => ?_⟩
  · simp only [check_hotspare]
    split_ifs <;> rfl
  · simp only [check_hotspare]
    rw [if_neg (by omega), if_pos hu]
    exact ⟨rfl, rfl⟩
  · simp only [check_hotspare]
    rw [if_pos hs]
    exact ⟨rfl, rfl⟩

def B10 : Bundle := { emptyBundle with pdShow := str "0:0 9 Onln -\n0:1 9 UGood -" }

theorem C10_witness :
    (check_hotspare B10 initStatus).spare_count = 0 ∧
    (check_hotspare B10 initStatus).hotspare_status = str "UGood:" ++ natStr 1 ∧
    (check_hotspare B10 initStatus).warnings = [] := by
  have h := C10_spares_metric B10 initStatus
  have h2 := h.2.1 (by decide) (by decide)
  refine ⟨?_, ?_, ?_⟩
  · rw [h.1]
    decide
  · have hg : countUGood B10.pdShow = 1 := by decide
    rw [h2.1, hg]
  · have hw := h2.2
    simpa [initStatus] using hw

/-- The WARNING finding the CacheVault branch of `check_battery` records for
a resolved token. -/
def cvFinding : Option Str → List Str
  | some t => if goodCV t then [] else [str "CacheVault " ++ t]
  | none => []

/-- The WARNING finding the BBU branch of `check_battery` records for a
resolved token. -/
def bbuFinding : Option Str → List Str
  | some t => if goodBBU t then [] else [str "BBU " ++ t]
  | none => []

/-- C3 (amended): each power-protection chain tries status, basic, all, then
the token embedded in the controller summary; a variant containing
"unsupported command" is treated as absent and the first variant yielding a
State/Status token decides.  A token resolved by the cache-vault chain is
good exactly when it starts with Optimal or Good (case-insensitively): OK is
good only for the battery chain.  A good token leaves the findings
unchanged; any other token adds exactly one WARNING finding per chain. -/
theorem C3_battery_chain (b : Bundle) (s : RaidStatus)
    (hcv : cvResolve b ≠ none ∨ bbuResolve b ≠ none) :
    (check_battery b s).warnings
        = s.warnings ++ cvFinding (cvResolve b) ++ bbuFinding (bbuResolve b) ∧
    (∀ out, containsCI (str "unsupported command") out = true → resolveVariant out = none) ∧
    (∀ t, resolveVariant b.cvStatus = none → resolveVariant b.cvBasic = none →
      resolveVariant b.cvAll = some t → cvResolve b = some t) ∧
    (∀ t, resolveVariant b.bbuStatus = none → resolveVariant b.bbuBasic = none →
      resolveVariant b.bbuAll = some t → bbuResolve b = some t) := by
  refine ⟨?_, fun out h => ?_, fun t h1 h2 h3 => ?_, fun t h1 h2 h3 => ?_⟩
  · rcases hc : cvResolve b with _ | t1 <;> rcases hb : bbuResolve b with _ | t2
    · exfalso
      rcases hcv with h | h
      · exact h hc
      · exact h hb
    · by_cases g2 : goodBBU t2 = true <;> by_cases hbs : s.battery_status = [] <;>
        simp +decide [check_battery, hc, hb, cvFinding, bbuFinding, g2, hbs, List.append_eq_nil]
    · by_cases g1 : goodCV t1 = true <;> by_cases hbs : s.battery_status = [] <;>
        simp +decide [check_battery, hc, hb, cvFinding, bbuFinding, g1, hbs, List.append_eq_nil]
    · by_cases g1 : goodCV t1 = true <;> by_cases g2 : goodBBU t2 = true <;>
        by_cases hbs : s.battery_status = [] <;>
        simp +decide [check_battery, hc, hb, cvFinding, bbuFinding, g1, g2, hbs,
          List.append_eq_nil]
  · unfold resolveVariant
    rw [if_pos h]
  · simp [cvResolve, h1, h2, h3]
  · simp [bbuResolve, h1, h2, h3]

def B3 : Bundle := { emptyBundle with cvStatus := str "Status = OK" }

/-- C3 counterexample: the cache-vault chain resolves the token `OK`, yet a
`CacheVault OK` WARNING finding is recorded, because the good-token test of
that chain accepts only Optimal/Good prefixes; the claim that the tokens
Optimal, Good or OK always report OK with no finding is therefore false. -/
theorem C3_counterexample :
    cvResolve B3 = some (str "OK") ∧
    (check_battery B3 initStatus).warnings = [str "CacheVault " ++ str "OK"] := by
  constructor <;> decide

def B3w : Bundle :=
  { emptyBundle with cvStatus := str "unsupported command", cvAll := str "State = Optimal" }

theorem C3_witness :
    resolveVariant B3w.cvStatus = none ∧
    cvResolve B3w = some (str "Optimal") ∧
    (check_battery B3w initStatus).warnings = [] := by
  refine ⟨?_, by decide, ?_⟩
  · exact (C3_battery_chain B3w initStatus (Or.inl (by decide))).2.1 B3w.cvStatus (by decide)
  · rw [(C3_battery_chain B3w initStatus (Or.inl (by decide))).1]
    decide

theorem mediaStep_fields (d sec : Str) (s : RaidStatus) :
    (mediaStep d sec s).media_errors
        = s.media_errors + (searchLabelNum [str "Media Error"] sec).getD 0 ∧
    (mediaStep d sec s).other_errors = s.other_errors ∧
    (mediaStep d sec s).critical_warnings
        = s.critical_warnings
          ++ (match searchLabelNum [str "Media Error"] sec with
              | some c =>
                if 0 < c ∧ MEDIA_ERROR_CRIT ≤ c then
                  [str "Drive " ++ d ++ str ": " ++ natStr c ++ str " media errors"]
                else []
              | none => []) ∧
    (mediaStep d sec s).warnings
        = s.warnings
          ++ (match searchLabelNum [str "Media Error"] sec with
              | some c =>
                if 0 < c ∧ MEDIA_ERROR_WARN ≤ c ∧ c < MEDIA_ERROR_CRIT then
                  [str "Drive " ++ d ++ str ": " ++ natStr c ++ str " media errors"]
                else []
              | none => []) := by
  unfold mediaStep
  cases h : searchLabelNum [str "Media Error"] sec with
  | none => simp
  | some c =>
    dsimp only
    by_cases h0 : 0 < c
    · by_cases hcr : MEDIA_ERROR_CRIT ≤ c
      · rw [if_pos h0, if_pos hcr]
        refine ⟨by simp, rfl, by simp [h0, hcr], ?_⟩
        have hlt : ¬(0 < c ∧ MEDIA_ERROR_WARN ≤ c ∧ c < MEDIA_ERROR_CRIT) := by
          simp only [MEDIA_ERROR_WARN, MEDIA_ERROR_CRIT] at hcr ⊢
          omega
        rw [if_neg hlt]
        simp
      · rw [if_pos h0, if_neg hcr]
        have hw : MEDIA_ERROR_WARN ≤ c := by
          simp only [MEDIA_ERROR_WARN]
          omega
        rw [if_pos hw]
        refine ⟨by simp, rfl, by simp [hcr], ?_⟩
        have hlt : 0 < c ∧ MEDIA_ERROR_WARN ≤ c ∧ c < MEDIA_ERROR_CRIT := ⟨h0, hw, by omega⟩
        rw [if_pos hlt]
    · rw [if_neg h0]
      have hc0 : c = 0 := by omega
      subst hc0
      exact ⟨by simp, rfl, by simp, by simp⟩

theorem otherStep_fields (d sec : Str) (s : RaidStatus) :
    (otherStep d sec s).media_errors = s.media_errors ∧
    (otherStep d sec s).other_errors
        = s.other_errors + (searchLabelNum [str "Other Error"] sec).getD 0 ∧
    (otherStep d sec s).critical_warnings = s.critical_warnings ∧
    (otherStep d sec s).warnings
        = s.warnings
          ++ (match searchLabelNum [str "Other Error"] sec with
              | some c =>
                if 0 < c ∧ OTHER_ERROR_WARN ≤ c then
                  [str "Drive " ++ d ++ str ": " ++ natStr c ++ str " other errors"]
                else []
              | none => []) := by
  unfold otherStep
  cases h : searchLabelNum [str "Other Error"] sec with
  | none => simp
  | some c =>
    dsimp only
    by_cases h0 : 0 < c
    · have hw : OTHER_ERROR_WARN ≤ c := by
        simp only [OTHER_ERROR_WARN]
        omega
      rw [if_pos h0, if_pos hw]
      exact ⟨rfl, by simp, rfl, by simp [h0, hw]⟩
    · rw [if_neg h0]
      have hc0 : c = 0 := by omega
      subst hc0
      exact ⟨rfl, by simp, rfl, by simp⟩

theorem shieldStep_fields (d sec : Str) (s : RaidStatus) :
    (shieldStep d sec s).media_errors = s.media_errors ∧
    (shieldStep d sec s).other_errors = s.other_errors ∧
    (shieldStep d sec s).critical_warnings = s.critical_warnings ∧
    (shieldStep d sec s).warnings
        = s.warnings
          ++ (match searchLabelNum [str "Shield Counter"] sec with
              | some c =>
                if 0 < c then
                  [str "Drive " ++ d ++ str ": " ++ natStr c ++ str " shield errors"]
                else []
              | none => []) := by
  unfold shieldStep
  cases h : searchLabelNum [str "Shield Counter"] sec with
  | none => simp
  | some c =>
    dsimp only
    by_cases h0 : 0 < c
    · rw [if_pos h0]
      exact ⟨rfl, rfl, rfl, by simp [h0]⟩
    · rw [if_neg h0]
      exact ⟨rfl, rfl, rfl, by simp [h0]⟩

theorem bbmStep_fields (d sec : Str) (s : RaidStatus) :
    (bbmStep d sec s).media_errors = s.media_errors ∧
    (bbmStep d sec s).other_errors = s.other_errors ∧
    (bbmStep d sec s).critical_warnings = s.critical_warnings ∧
    (bbmStep d sec s).warnings
        = s.warnings
          ++ (match searchLabelNum [str "BBM Error"] sec with
              | some c =>
                if 0 < c then
                  [str "Drive " ++ d ++ str ": " ++ natStr c ++ str " BBM errors"]
                else []
              | none => []) := by
  unfold bbmStep
  cases h : searchLabelNum [str "BBM Error"] sec with
  | none => simp
  | some c =>
    dsimp only
    by_cases h0 : 0 < c
    · rw [if_pos h0]
      exact ⟨rfl, rfl, rfl, by simp [h0]⟩
    · rw [if_neg h0]
      exact ⟨rfl, rfl, rfl, by simp [h0]⟩

/-- C6 (amended): for a found drive-detail section, a media-error count at or
above the critical threshold yields one CRITICAL finding, one at or above the
warning threshold but below critical yields one WARNING finding, and every
media-error count accumulates into the running media-error total;
other-error counts accumulate into the running other-error total with a
single-tier WARNING; shield-counter and BBM-error counts yield single-tier
WARNING findings only and accumulate into no total, since the report keeps
running totals for media and other errors alone. -/
theorem C6_smart_counters (d sec : Str) (s : RaidStatus) :
    (smartStep d sec s).media_errors
        = s.media_errors + (searchLabelNum [str "Media Error"] sec).getD 0 ∧
    (smartStep d sec s).other_errors
        = s.other_errors + (searchLabelNum [str "Other Error"] sec).getD 0 ∧
    (∀ c, searchLabelNum [str "Media Error"] sec = some c → MEDIA_ERROR_CRIT ≤ c →
      (smartStep d sec s).critical_warnings = s.critical_warnings
          ++ [str "Drive " ++ d ++ str ": " ++ natStr c ++ str " media errors"]) ∧
    (∀ c, searchLabelNum [str "Media Error"] sec = some c → MEDIA_ERROR_WARN ≤ c →
        c < MEDIA_ERROR_CRIT →
      (smartStep d sec s).critical_warnings = s.critical_warnings ∧
      (str "Drive " ++ d ++ str ": " ++ natStr c ++ str " media errors")
          ∈ (smartStep d sec s).warnings) ∧
    (∀ c, searchLabelNum [str "Other Error"] sec = some c → OTHER_ERROR_WARN ≤ c →
      (str "Drive " ++ d ++ str ": " ++ natStr c ++ str " other errors")
          ∈ (smartStep d sec s).warnings) ∧
    (∀ c, searchLabelNum [str "Shield Counter"] sec = some c → 0 < c →
      (str "Drive " ++ d ++ str ": " ++ natStr c ++ str " shield errors")
          ∈ (smartStep d sec s).warnings) ∧
    (∀ c, searchLabelNum [str "BBM Error"] sec = some c → 0 < c →
      (str "Drive " ++ d ++ str ": " ++ natStr c ++ str " BBM errors")
          ∈ (smartStep d sec s).warnings) := by
  have hm := mediaStep_fields d sec s
  have ho := otherStep_fields d sec (mediaStep d sec s)
  have hsh := shieldStep_fields d sec (otherStep d sec (mediaStep d sec s))
  have hbb := bbmStep_fields d sec (shieldStep d sec (otherStep d sec (mediaStep d sec s)))
  unfold smartStep
  refine ⟨?_, ?_, fun c hc hcr => ?_, fun c hc hw hlt => ?_, fun c hc hw => ?_,
    fun c hc h0 => ?_, fun c hc h0 => ?_⟩
  · rw [hbb.1, hsh.1, ho.1, hm.1]
  · rw [hbb.2.1, hsh.2.1, ho.2.1, hm.2.1]
  · rw [hbb.2.2.1, hsh.2.2.1, ho.2.2.1, hm.2.2.1, hc]
    dsimp only
    have hp : 0 < c ∧ MEDIA_ERROR_CRIT ≤ c :=
      ⟨by simp only [MEDIA_ERROR_CRIT] at hcr; omega, hcr⟩
    rw [if_pos hp]
  · constructor
    · rw [hbb.2.2.1, hsh.2.2.1, ho.2.2.1, hm.2.2.1, hc]
      dsimp only
      rw [if_neg (by omega)]
      simp
    · rw [hbb.2.2.2, hsh.2.2.2, ho.2.2.2, hm.2.2.2, hc]
      dsimp only
      rw [if_pos ⟨by simp only [MEDIA_ERROR_WARN] at hw; omega, hw, hlt⟩]
      simp
  · rw [hbb.2.2.2, hsh.2.2.2, ho.2.2.2, hc]
    dsimp only
    rw [if_pos ⟨by simp only [OTHER_ERROR_WARN] at hw; omega, hw⟩]
    simp
  · rw [hbb.2.2.2, hsh.2.2.2, hc]
    dsimp only
    rw [if_pos h0]
    simp
  · rw [hbb.2.2.2, hc]
    dsimp only
    rw [if_pos h0]
    simp

/-- C6 counterexample: a drive section with a positive shield counter records
a WARNING finding but changes neither of the report's running error totals
(`media_errors`, `other_errors`), so shield counts do not accumulate into any
running total as the claim states. -/
theorem C6_counterexample :
    (smartStep (str "0:1") (str "Shield Counter = 3") initStatus).warnings
        = [str "Drive 0:1: 3 shield errors"] ∧
    (smartStep (str "0:1") (str "Shield Counter = 3") initStatus).media_errors = 0 ∧
    (smartStep (str "0:1") (str "Shield Counter = 3") initStatus).other_errors = 0 := by
  refine ⟨?_, ?_, ?_⟩ <;> decide

def sec6 : Str := str "Media Error Count = 12\nOther Error Count = 2"

theorem C6_witness :
    (smartStep (str "0:2") sec6 initStatus).media_errors = 12 ∧
    (smartStep (str "0:2") sec6 initStatus).other_errors = 2 ∧
    (smartStep (str "0:2") sec6 initStatus).critical_warnings
        = [str "Drive " ++ str "0:2" ++ str ": " ++ natStr 12 ++ str " media errors"] ∧
    (str "Drive " ++ str "0:2" ++ str ": " ++ natStr 2 ++ str " other errors")
        ∈ (smartStep (str "0:2") sec6 initStatus).warnings := by
  have h := C6_smart_counters (str "0:2") sec6 initStatus
  refine ⟨?_, ?_, ?_, ?_⟩
  · rw [h.1]
    decide
  · rw [h.2.1]
    decide
  · rw [h.2.2.1 12 (by decide) (by decide)]
    decide
  · exact h.2.2.2.2.1 2 (by decide) (by decide)

theorem startsWithCS_refl (p : Str) : startsWithCS p p = true := by
  induction p with
  | nil => rfl
  | cons a ps ih => simp [startsWithCS, ih]

theorem containsSub_self (p : Str) : containsSub p p = true :=
  containsSub_of_starts p p (startsWithCS_refl p)

theorem startsWithCS_extend (p a s : Str) (h : startsWithCS p a = true) :
    startsWithCS p (a ++ s) = true := by
  induction p generalizing a with
  | nil => rfl
  | cons x ps ih =>
    cases a with
    | nil => simp [startsWithCS] at h
    | cons c cs =>
      simp only [startsWithCS, Bool.and_eq_true] at h
      simp [startsWithCS, h.1, ih cs h.2]

theorem containsSub_append_right (p a s : Str) (h : containsSub p a = true) :
    containsSub p (a ++ s) = true := by
  induction a with
  | nil =>
    simp only [containsSub, List.isEmpty_iff] at h
    subst h
    cases s with
    | nil => rfl
    | cons c cs => simp [containsSub, startsWithCS]
  | cons c cs ih =>
    simp only [containsSub, Bool.or_eq_true] at h
    rcases h with h | h
    · have hx := startsWithCS_extend p (c :: cs) s h
      simp only [containsSub, Bool.or_eq_true]
      exact Or.inl hx
    · simp [containsSub, ih h]

theorem containsSub_tail (a p : Str) : containsSub p (a ++ p) = true :=
  containsSub_append_left a p p (containsSub_self p)

theorem evaluateRest_cases (cfg : Config) (s : RaidStatus) (suffix : Str) (L : List VDRec) :
    (∀ r rs, L.filter (fun x => x.st != str "Optl") = r :: rs →
      (evaluateRest cfg s suffix L).1
          = (if r.st = str "Rbld" ∨ r.st = str "Pdgd" then STATE_WARNING else STATE_CRITICAL) ∧
      containsSub (str "VD" ++ r.v) (evaluateRest cfg s suffix L).2 = true) ∧
    (L.filter (fun x => x.st != str "Optl") = [] → s.critical_warnings ≠ [] →
      (evaluateRest cfg s suffix L).1 = STATE_CRITICAL ∧
      containsSub (joinSep (str "; ") s.critical_warnings)
        (evaluateRest cfg s suffix L).2 = true) ∧
    (L.filter (fun x => x.st != str "Optl") = [] → s.critical_warnings = [] →
        s.warnings ≠ [] →
      (evaluateRest cfg s suffix L).1 = STATE_WARNING ∧
      containsSub (joinSep (str "; ") s.warnings) (evaluateRest cfg s suffix L).2 = true) ∧
    (L.filter (fun x => x.st != str "Optl") = [] → s.critical_warnings = [] →
        s.warnings = [] →
      (evaluateRest cfg s suffix L).1 = STATE_OK) := by
  refine ⟨fun r rs hN => ?_, fun hN hcr => ?_, fun hN hcr hw => ?_, fun hN hcr hw => ?_⟩
  · unfold evaluateRest
    rw [hN]
    dsimp only
    by_cases hrb : r.st = str "Rbld" ∨ r.st = str "Pdgd"
    · rw [if_pos hrb, if_pos hrb]
      refine ⟨rfl, ?_⟩
      by_cases ht : cfg.terse = true
      · rw [if_pos ht]
        dsimp only
        exact containsSub_append_right _ _ _
          (containsSub_append_right _ _ _ (containsSub_tail _ _))
      · rw [if_neg ht]
        dsimp only
        exact containsSub_append_right _ _ _
          (containsSub_append_right _ _ _ (containsSub_tail _ _))
    · rw [if_neg hrb, if_neg hrb]
      refine ⟨rfl, ?_⟩
      by_cases ht : cfg.terse = true
      · rw [if_pos ht]
        dsimp only
        exact containsSub_append_right _ _ _
          (containsSub_append_right _ _ _ (containsSub_tail _ _))
      · rw [if_neg ht]
        dsimp only
        exact containsSub_append_right _ _ _
          (containsSub_append_right _ _ _ (containsSub_tail _ _))
  · unfold evaluateRest
    rw [hN]
    dsimp only
    rw [if_pos hcr]
    refine ⟨rfl, ?_⟩
    by_cases ht : cfg.terse = true
    · rw [if_pos ht]
      dsimp only
      exact containsSub_append_right _ _ _ (containsSub_tail _ _)
    · rw [if_neg ht]
      dsimp only
      exact containsSub_append_right _ _ _
        (containsSub_append_right _ _ _ (containsSub_tail _ _))
  · unfold evaluateRest
    rw [hN]
    dsimp only
    rw [if_neg (fun hne => hne hcr), if_pos hw]
    refine ⟨rfl, ?_⟩
    by_cases ht : cfg.terse = true
    · rw [if_pos ht]
      dsimp only
      exact containsSub_append_right _ _ _ (containsSub_tail _ _)
    · rw [if_neg ht]
      dsimp only
      exact containsSub_append_right _ _ _
        (containsSub_append_right _ _ _ (containsSub_tail _ _))
  · unfold evaluateRest
    rw [hN]
    dsimp only
    rw [if_neg (fun hne => hne hcr), if_neg (fun hne => hne hw)]

/-- C1: the verdict is decided by a fixed priority order: a first non-Optimal
virtual drive surviving the optional filter gives WARNING when its raw state
is Rebuilding or Partially-Degraded and CRITICAL otherwise, naming that
drive; otherwise recorded CRITICAL findings give CRITICAL with all of them
joined; otherwise recorded WARNING findings give WARNING with all of them
joined; otherwise the verdict is OK.  (The hypothesis excludes only the
earlier drive-filter-not-found rule.) -/
theorem C1_evaluate_priority (cfg : Config) (s : RaidStatus) (vdOutput : Str)
    (hnf : ∀ v, cfg.vdNum = some v →
      (parseVDLinesE vdOutput).filter (fun r => r.v == v) ≠ []) :
    (∀ r rs, (filteredVD cfg vdOutput).filter (fun x => x.st != str "Optl") = r :: rs →
      (evaluate_status cfg vdOutput s).1
          = (if r.st = str "Rbld" ∨ r.st = str "Pdgd" then STATE_WARNING else STATE_CRITICAL) ∧
      containsSub (str "VD" ++ r.v) (evaluate_status cfg vdOutput s).2 = true) ∧
    ((filteredVD cfg vdOutput).filter (fun x => x.st != str "Optl") = [] →
        s.critical_warnings ≠ [] →
      (evaluate_status cfg vdOutput s).1 = STATE_CRITICAL ∧
      containsSub (joinSep (str "; ") s.critical_warnings)
        (evaluate_status cfg vdOutput s).2 = true) ∧
    ((filteredVD cfg vdOutput).filter (fun x => x.st != str "Optl") = [] →
        s.critical_warnings = [] → s.warnings ≠ [] →
      (evaluate_status cfg vdOutput s).1 = STATE_WARNING ∧
      containsSub (joinSep (str "; ") s.warnings) (evaluate_status cfg vdOutput s).2 = true) ∧
    ((filteredVD cfg vdOutput).filter (fun x => x.st != str "Optl") = [] →
        s.critical_warnings = [] → s.warnings = [] →
      (evaluate_status cfg vdOutput s).1 = STATE_OK) := by
  have heq : evaluate_status cfg vdOutput s
      = evaluateRest cfg s (suffixOf cfg s) (filteredVD cfg vdOutput) := by
    cases hv : cfg.vdNum with
    | none => simp [evaluate_status, filteredVD, hv]
    | some v =>
      have hne := hnf v hv
      simp [evaluate_status, filteredVD, hv, hne]
  rw [heq]
  exact evaluateRest_cases cfg s (suffixOf cfg s) (filteredVD cfg vdOutput)

theorem C1_witness :
    (evaluate_status cfgDefault (str "0/0 RAID1 Rbld x") initStatus).1 = STATE_WARNING ∧
    containsSub (str "VD" ++ str "0")
      (evaluate_status cfgDefault (str "0/0 RAID1 Rbld x") initStatus).2 = true ∧
    (evaluate_status cfgDefault (str "0/0 RAID1 Optl x") initStatus).1 = STATE_OK := by
  have h1 := C1_evaluate_priority cfgDefault initStatus (str "0/0 RAID1 Rbld x")
    (fun v hv => by cases hv)
  have h2 := C1_evaluate_priority cfgDefault initStatus (str "0/0 RAID1 Optl x")
    (fun v hv => by cases hv)
  refine ⟨?_, ?_, ?_⟩
  · have hr := (h1.1 (VDRec.mk (str "0") (str "0") (str "RAID1") (str "Rbld") (str "x"))
      [] (by decide)).1
    rw [hr]
    decide
  · exact (h1.1 (VDRec.mk (str "0") (str "0") (str "RAID1") (str "Rbld") (str "x"))
      [] (by decide)).2
  · exact h2.2.2.2 (by decide) rfl rfl

/-- C4 (amended): with a virtual-drive filter requested, no matching record
gives the CRITICAL not-found verdict; a matching record in the Rebuilding
state gives a WARNING naming that drive, and the extracted rebuild
percentage (carried in `rebuild_status`) is included in the message exactly
when verbose phrasing is configured — the default terse phrasing names only
the drive and its state. -/
theorem C4_filter_verdicts (cfg : Config) (v : Str) (s : RaidStatus) (vdOutput : Str)
    (hv : cfg.vdNum = some v) :
    ((parseVDLinesE vdOutput).filter (fun r => r.v == v) = [] →
      evaluate_status cfg vdOutput s
          = (STATE_CRITICAL, str "RAID CRITICAL - Virtual Drive " ++ v ++ str " not found")) ∧
    (∀ r rs, (parseVDLinesE vdOutput).filter (fun x => x.v == v) = r :: rs →
      r.st = str "Rbld" →
      (evaluate_status cfg vdOutput s).1 = STATE_WARNING ∧
      containsSub (str "VD" ++ r.v) (evaluate_status cfg vdOutput s).2 = true ∧
      (cfg.terse = false → s.rebuild_status ≠ [] →
        containsSub (str " [" ++ s.rebuild_status ++ str "]")
          (evaluate_status cfg vdOutput s).2 = true)) := by
  constructor
  · intro h
    simp [evaluate_status, hv, h]
  · intro r rs hfil hrb
    have heq : evaluate_status cfg vdOutput s
        = evaluateRest cfg s (suffixOf cfg s) (r :: rs) := by
      simp [evaluate_status, hv, hfil]
    rw [heq]
    have hflt : (r :: rs).filter (fun x => x.st != str "Optl")
        = r :: rs.filter (fun x => x.st != str "Optl") := by
      rw [List.filter_cons]
      rw [if_pos (by rw [hrb]; decide)]
    unfold evaluateRest
    rw [hflt]
    dsimp only
    rw [if_pos (Or.inl hrb)]
    refine ⟨rfl, ?_, fun hterse hrs => ?_⟩
    · by_cases ht : cfg.terse = true
      · rw [if_pos ht]
        dsimp only
        exact containsSub_append_right _ _ _
          (containsSub_append_right _ _ _ (containsSub_tail _ _))
      · rw [if_neg ht]
        dsimp only
        exact containsSub_append_right _ _ _
          (containsSub_append_right _ _ _ (containsSub_tail _ _))
    · rw [if_neg (by rw [hterse]; simp), if_pos hrs]
      dsimp only
      exact containsSub_append_right _ _ _
        (containsSub_append_left _ _ _ (containsSub_tail _ _))

def cfg4 : Config := { cfgDefault with vdNum := some (str "1") }

def B4 : Bundle :=
  { emptyBundle with
    vdShow := str "0/0 RAID1 Optl x\n0/1 RAID1 Rbld y"
    rebuildShow := str "Progress = 42%" }

/-- C4 counterexample: a full run over a bundle whose drive 1 is rebuilding
at 42% extracts the percentage into `rebuild_status`, returns the WARNING
verdict for the filtered drive, yet the message does not contain the
percentage, because the default terse phrasing omits the rebuild
information; the claim that the message includes the extracted percentage is
therefore false for the default configuration. -/
theorem C4_counterexample :
    (runChecks cfg4 B4).rebuild_status = str "Rebuild:42%" ∧
    (check_all cfg4 B4).1 = STATE_WARNING ∧
    containsSub (str "42") (check_all cfg4 B4).2 = false := by
  refine ⟨?_, ?_, ?_⟩ <;> decide

def cfg4v : Config := { cfgDefault with vdNum := some (str "1"), terse := false }

def s4 : RaidStatus := { initStatus with rebuild_status := str "Rebuild:42%" }

theorem C4_witness :
    evaluate_status { cfgDefault with vdNum := some (str "5") } (str "0/0 RAID1 Optl x")
        initStatus
      = (STATE_CRITICAL, str "RAID CRITICAL - Virtual Drive " ++ str "5" ++ str " not found") ∧
    (evaluate_status cfg4v (str "0/0 RAID1 Optl x\n0/1 RAID1 Rbld y") s4).1 = STATE_WARNING ∧
    containsSub (str " [" ++ s4.rebuild_status ++ str "]")
      (evaluate_status cfg4v (str "0/0 RAID1 Optl x\n0/1 RAID1 Rbld y") s4).2 = true := by
  have h1 := C4_filter_verdicts { cfgDefault with vdNum := some (str "5") } (str "5")
    initStatus (str "0/0 RAID1 Optl x") rfl
  have h2 := C4_filter_verdicts cfg4v (str "1") s4
    (str "0/0 RAID1 Optl x\n0/1 RAID1 Rbld y") rfl
  have h2r := h2.2 (VDRec.mk (str "0") (str "1") (str "RAID1") (str "Rbld") (str "y"))
    [] (by decide) rfl
  exact ⟨h1.1 (by decide), h2r.1, h2r.2.2 rfl (by decide)⟩

/-- The eight drive-count fields of the report, which only `build_perfdata`
may change. -/
def countsOf (s : RaidStatus) : Nat × Nat × Nat × Nat × Nat × Nat × Nat × Nat :=
  (s.vd_total, s.vd_ok, s.vd_warn, s.vd_crit, s.pd_total, s.pd_ok, s.pd_warn, s.pd_crit)

theorem counts_foldl {α : Type} (f : RaidStatus → α → RaidStatus)
    (hf : ∀ s a, countsOf (f s a) = countsOf s) :
    ∀ (l : List α) (s : RaidStatus), countsOf (l.foldl f s) = countsOf s := by
  intro l
  induction l with
  | nil => intro s; rfl
  | cons a as ih =>
    intro s
    rw [List.foldl_cons, ih, hf]

theorem ctrl_counts (b : Bundle) (s : RaidStatus) :
    countsOf (check_controller_health b s) = countsOf s := by
  unfold check_controller_health
  repeat' split
  all_goals rfl

theorem energyPack_counts (b : Bundle) (s : RaidStatus) :
    countsOf (energyPackCheck b s) = countsOf s := by
  unfold energyPackCheck
  try dsimp only
  repeat' split
  all_goals rfl

theorem battery_counts (b : Bundle) (s : RaidStatus) :
    countsOf (check_battery b s) = countsOf s := by
  unfold check_battery
  dsimp only
  split
  · rw [energyPack_counts]
    repeat' split
    all_goals rfl
  · repeat' split
    all_goals rfl

theorem foreign_counts (b : Bundle) (s : RaidStatus) :
    countsOf (check_foreign_config b s) = countsOf s := by
  unfold check_foreign_config
  try dsimp only
  repeat' split
  all_goals rfl

theorem pred_counts (b : Bundle) (s : RaidStatus) :
    countsOf (check_predictive_failure b s) = countsOf s := by
  unfold check_predictive_failure
  try dsimp only
  repeat' split
  all_goals rfl

theorem mediaStep_counts (d sec : Str) (s : RaidStatus) :
    countsOf (mediaStep d sec s) = countsOf s := by
  unfold mediaStep
  try dsimp only
  repeat' split
  all_goals rfl

theorem otherStep_counts (d sec : Str) (s : RaidStatus) :
    countsOf (otherStep d sec s) = countsOf s := by
  unfold otherStep
  try dsimp only
  repeat' split
  all_goals rfl

theorem shieldStep_counts (d sec : Str) (s : RaidStatus) :
    countsOf (shieldStep d sec s) = countsOf s := by
  unfold shieldStep
  repeat' split
  all_goals rfl

theorem bbmStep_counts (d sec : Str) (s : RaidStatus) :
    countsOf (bbmStep d sec s) = countsOf s := by
  unfold bbmStep
  repeat' split
  all_goals rfl

theorem smartStep_counts (d sec : Str) (s : RaidStatus) :
    countsOf (smartStep d sec s) = countsOf s := by
  unfold smartStep
  rw [bbmStep_counts, shieldStep_counts, otherStep_counts, mediaStep_counts]

theorem smart_counts (b : Bundle) (s : RaidStatus) :
    countsOf (check_smart_data b s) = countsOf s := by
  unfold check_smart_data
  refine counts_foldl _ (fun s0 d => ?_) _ s
  split
  · rw [smartStep_counts]
  · rfl

theorem rebuild_counts (b : Bundle) (s : RaidStatus) :
    countsOf (check_rebuild_progress b s) = countsOf s := by
  unfold check_rebuild_progress
  try dsimp only
  repeat' split
  all_goals rfl

theorem cc_counts (b : Bundle) (s : RaidStatus) :
    countsOf (check_consistency_check b s) = countsOf s := by
  unfold check_consistency_check
  try dsimp only
  repeat' split
  all_goals rfl

theorem ssdWearStep_counts (d : Str) (r : Nat) (s : RaidStatus) :
    countsOf (ssdWearStep d r s) = countsOf s := by
  unfold ssdWearStep
  repeat' split
  all_goals rfl

theorem ssd_counts (b : Bundle) (s : RaidStatus) :
    countsOf (check_ssd_wear b s) = countsOf s := by
  unfold check_ssd_wear
  refine counts_foldl _ (fun s0 d => ?_) _ s
  repeat' split
  all_goals first
    | rfl
    | rw [ssdWearStep_counts]

theorem temp_counts (b : Bundle) (s : RaidStatus) :
    countsOf (check_drive_temperature b s) = countsOf s := by
  unfold check_drive_temperature
  refine counts_foldl _ (fun s0 t => ?_) _ s
  unfold tempStep tempClassify
  try dsimp only
  repeat' split
  all_goals rfl

theorem patrol_counts (b : Bundle) (s : RaidStatus) :
    countsOf (check_patrol_read b s) = countsOf s := by
  unfold check_patrol_read
  try dsimp only
  repeat' split
  all_goals rfl

theorem hotspare_counts (b : Bundle) (s : RaidStatus) :
    countsOf (check_hotspare b s) = countsOf s := by
  unfold check_hotspare
  try dsimp only
  repeat' split
  all_goals rfl

theorem long_counts (b : Bundle) (s : RaidStatus) :
    countsOf (build_long_output b s) = countsOf s := by
  unfold build_long_output
  rfl

theorem preStatus_counts (b : Bundle) : countsOf (preStatus b) = countsOf initStatus := by
  unfold preStatus
  rw [hotspare_counts, patrol_counts, temp_counts, ssd_counts, cc_counts, rebuild_counts,
    smart_counts, pred_counts, foreign_counts, battery_counts, ctrl_counts]

theorem vdStep_spec (s : RaidStatus) (p : Str × Str) :
    (vdStep s p).vd_ok + (vdStep s p).vd_warn + (vdStep s p).vd_crit
        = s.vd_ok + s.vd_warn + s.vd_crit + 1 ∧
    (vdStep s p).vd_total = s.vd_total ∧
    (vdStep s p).pd_total = s.pd_total ∧
    (vdStep s p).pd_ok = s.pd_ok ∧
    (vdStep s p).pd_warn = s.pd_warn ∧
    (vdStep s p).pd_crit = s.pd_crit := by
  unfold vdStep
  split_ifs <;> refine ⟨by (try dsimp only); omega, rfl, rfl, rfl, rfl, rfl⟩

theorem vd_fold_spec (l : List (Str × Str)) :
    ∀ s : RaidStatus,
      (l.foldl vdStep s).vd_ok + (l.foldl vdStep s).vd_warn + (l.foldl vdStep s).vd_crit
          = s.vd_ok + s.vd_warn + s.vd_crit + l.length ∧
      (l.foldl vdStep s).vd_total = s.vd_total ∧
      (l.foldl vdStep s).pd_total = s.pd_total ∧
      (l.foldl vdStep s).pd_ok = s.pd_ok ∧
      (l.foldl vdStep s).pd_warn = s.pd_warn ∧
      (l.foldl vdStep s).pd_crit = s.pd_crit := by
  induction l with
  | nil => intro s; exact ⟨by simp, rfl, rfl, rfl, rfl, rfl⟩
  | cons p ps ih =>
    intro s
    rw [List.foldl_cons]
    have h1 := ih (vdStep s p)
    have h2 := vdStep_spec s p
    refine ⟨?_, ?_, ?_, ?_, ?_, ?_⟩
    · rw [h1.1, h2.1]
      simp
      omega
    · rw [h1.2.1, h2.2.1]
    · rw [h1.2.2.1, h2.2.2.1]
    · rw [h1.2.2.2.1, h2.2.2.2.1]
    · rw [h1.2.2.2.2.1, h2.2.2.2.2.1]
    · rw [h1.2.2.2.2.2, h2.2.2.2.2.2]

theorem pdStep_spec (s : RaidStatus) (p : Str × Str) :
    (pdStep s p).pd_ok + (pdStep s p).pd_warn + (pdStep s p).pd_crit
        ≤ s.pd_ok + s.pd_warn + s.pd_crit + 1 ∧
    (pdStep s p).pd_total = s.pd_total ∧
    (pdStep s p).vd_total = s.vd_total ∧
    (pdStep s p).vd_ok = s.vd_ok ∧
    (pdStep s p).vd_warn = s.vd_warn ∧
    (pdStep s p).vd_crit = s.vd_crit := by
  unfold pdStep
  split_ifs <;> refine ⟨by (try dsimp only); omega, rfl, rfl, rfl, rfl, rfl⟩

theorem pd_fold_spec (l : List (Str × Str)) :
    ∀ s : RaidStatus,
      (l.foldl pdStep s).pd_ok + (l.foldl pdStep s).pd_warn + (l.foldl pdStep s).pd_crit
          ≤ s.pd_ok + s.pd_warn + s.pd_crit + l.length ∧
      (l.foldl pdStep s).pd_total = s.pd_total ∧
      (l.foldl pdStep s).vd_total = s.vd_total ∧
      (l.foldl pdStep s).vd_ok = s.vd_ok ∧
      (l.foldl pdStep s).vd_warn = s.vd_warn ∧
      (l.foldl pdStep s).vd_crit = s.vd_crit := by
  induction l with
  | nil => intro s; exact ⟨by simp, rfl, rfl, rfl, rfl, rfl⟩
  | cons p ps ih =>
    intro s
    rw [List.foldl_cons]
    have h1 := ih (pdStep s p)
    have h2 := pdStep_spec s p
    refine ⟨?_, ?_, ?_, ?_, ?_, ?_⟩
    · calc (ps.foldl pdStep (pdStep s p)).pd_ok + (ps.foldl pdStep (pdStep s p)).pd_warn
            + (ps.foldl pdStep (pdStep s p)).pd_crit
          ≤ (pdStep s p).pd_ok + (pdStep s p).pd_warn + (pdStep s p).pd_crit + ps.length :=
            h1.1
        _ ≤ s.pd_ok + s.pd_warn + s.pd_crit + 1 + ps.length := by omega
        _ = s.pd_ok + s.pd_warn + s.pd_crit + (p :: ps).length := by simp; omega
    · rw [h1.2.1, h2.2.1]
    · rw [h1.2.2.1, h2.2.2.1]
    · rw [h1.2.2.2.1, h2.2.2.2.1]
    · rw [h1.2.2.2.2.1, h2.2.2.2.2.1]
    · rw [h1.2.2.2.2.2, h2.2.2.2.2.2]

theorem build_perfdata_spec (b : Bundle) (s : RaidStatus) :
    (build_perfdata b s).vd_total = (parseVDLinesB b.vdShow).length ∧
    (build_perfdata b s).pd_total = (parsePDLinesB b.pdShow).length ∧
    (build_perfdata b s).vd_ok + (build_perfdata b s).vd_warn + (build_perfdata b s).vd_crit
        = s.vd_ok + s.vd_warn + s.vd_crit + (parseVDLinesB b.vdShow).length ∧
    (build_perfdata b s).pd_ok + (build_perfdata b s).pd_warn + (build_perfdata b s).pd_crit
        ≤ s.pd_ok + s.pd_warn + s.pd_crit + (parsePDLinesB b.pdShow).length := by
  unfold build_perfdata
  dsimp only
  have hvd := vd_fold_spec (parseVDLinesB b.vdShow)
    { s with vd_total := (parseVDLinesB b.vdShow).length }
  set s2 := (parseVDLinesB b.vdShow).foldl vdStep
    { s with vd_total := (parseVDLinesB b.vdShow).length } with hs2
  have hpd := pd_fold_spec (parsePDLinesB b.pdShow)
    { s2 with pd_total := (parsePDLinesB b.pdShow).length }
  refine ⟨?_, ?_, ?_, ?_⟩
  · rw [hpd.2.2.1]
    exact hvd.2.1
  · exact hpd.2.1
  · rw [hpd.2.2.2.1, hpd.2.2.2.2.1, hpd.2.2.2.2.2]
    exact hvd.1
  · calc (((parsePDLinesB b.pdShow).foldl pdStep
            { s2 with pd_total := (parsePDLinesB b.pdShow).length }).pd_ok
          + ((parsePDLinesB b.pdShow).foldl pdStep
            { s2 with pd_total := (parsePDLinesB b.pdShow).length }).pd_warn
          + ((parsePDLinesB b.pdShow).foldl pdStep
            { s2 with pd_total := (parsePDLinesB b.pdShow).length }).pd_crit)
        ≤ s2.pd_ok + s2.pd_warn + s2.pd_crit + (parsePDLinesB b.pdShow).length := hpd.1
      _ = s.pd_ok + s.pd_warn + s.pd_crit + (parsePDLinesB b.pdShow).length := by
          rw [hvd.2.2.2.1, hvd.2.2.2.2.1, hvd.2.2.2.2.2]

/-- C2 (amended): after the counting step runs, the virtual-drive buckets
always satisfy vd_total = vd_ok + vd_warn + vd_crit, since every parsed state
falls into exactly one bucket; on the physical-drive side only
pd_ok + pd_warn + pd_crit ≤ pd_total holds, because a parsed state outside
Onln/Rbld/Offln/Failed/UBad/Msng (such as a hot-spare or unconfigured-good
drive) is counted in pd_total but in no bucket. -/
theorem C2_perfdata_counts (cfg : Config) (b : Bundle) :
    (runChecks cfg b).vd_total
        = (runChecks cfg b).vd_ok + (runChecks cfg b).vd_warn + (runChecks cfg b).vd_crit ∧
    (runChecks cfg b).pd_ok + (runChecks cfg b).pd_warn + (runChecks cfg b).pd_crit
        ≤ (runChecks cfg b).pd_total := by
  have hz := preStatus_counts b
  simp only [countsOf, initStatus, Prod.mk.injEq] at hz
  obtain ⟨hz1, hz2, hz3, hz4, hz5, hz6, hz7, hz8⟩ := hz
  have hb := build_perfdata_spec b (preStatus b)
  have hR : countsOf (runChecks cfg b) = countsOf (build_perfdata b (preStatus b)) := by
    unfold runChecks
    dsimp only
    split
    · rw [long_counts]
    · rfl
  simp only [countsOf, Prod.mk.injEq] at hR
  obtain ⟨hR1, hR2, hR3, hR4, hR5, hR6, hR7, hR8⟩ := hR
  constructor
  · have hb1 := hb.1
    have hbs := hb.2.2.1
    rw [hR1, hR2, hR3, hR4]
    omega
  · have hb2 := hb.2.1
    have hbp := hb.2.2.2
    rw [hR5, hR6, hR7, hR8]
    omega

def B2 : Bundle := { emptyBundle with pdShow := str "0:1 10 GHS -" }

/-- C2 counterexample: a physical-drive summary with a single global
hot-spare line parses into one record, so pd_total = 1, while every bucket
stays 0; the claimed equation pd_total = pd_ok + pd_warn + pd_crit fails. -/
theorem C2_counterexample :
    (runChecks cfgDefault B2).pd_total = 1 ∧
    (runChecks cfgDefault B2).pd_ok + (runChecks cfgDefault B2).pd_warn
        + (runChecks cfgDefault B2).pd_crit = 0 := by
  constructor <;> decide

theorem dropWhile_shape (p : Char → Bool) (l : Str) :
    l.dropWhile p = [] ∨ ∃ c cs, l.dropWhile p = c :: cs ∧ p c = false := by
  induction l with
  | nil => exact Or.inl rfl
  | cons a l ih =>
    by_cases h : p a = true
    · simpa [List.dropWhile_cons, h] using ih
    · exact Or.inr ⟨a, l, by simp [List.dropWhile_cons, h], by simpa using h⟩

theorem parseVDHead_rest (l : Str) (r : Str × Str × Str × Str)
    (hp : parseVDHead l = some r) :
    r.2.2.2 = [] ∨ ∃ c cs, r.2.2.2 = c :: cs ∧ isSpaceC c = false := by
  unfold parseVDHead at hp
  dsimp only at hp
  repeat' split at hp
  all_goals cases hp
  all_goals exact dropWhile_shape isSpaceC _

theorem lineE_none (l : Str) (h : parseVDLineB l = none) : parseVDLineE l = none := by
  unfold parseVDLineB at h
  unfold parseVDLineE
  cases hp : parseVDHead l with
  | none => rfl
  | some r =>
    rw [hp] at h
    dsimp only at h
    split at h
    case isTrue ht =>
      have hrest : r.2.2.2 = [] := by
        rcases parseVDHead_rest l r hp with he | ⟨c, cs, hc, hns⟩
        · exact he
        · rw [hc] at ht
          rw [List.takeWhile_cons, if_pos (by simp [isNonspace, hns])] at ht
          cases ht
      dsimp only
      rw [hrest]
      rfl
    case isFalse => cases h

theorem parseE_nil (t : Str) (h : parseVDLinesB t = []) : parseVDLinesE t = [] := by
  unfold parseVDLinesB at h
  unfold parseVDLinesE
  rw [List.filterMap_eq_nil_iff] at h ⊢
  intro l hl
  exact lineE_none l (h l hl)

/-- C9: when the virtual-drive summary yields zero parsed records, no filter
was requested and no finding was recorded by any check, the aggregator
returns the OK verdict with vd_total = 0 rather than UNKNOWN or an error: an
empty or unparseable drive list is vacuously treated as all-optimal. -/
theorem C9_empty_vd_ok (cfg : Config) (b : Bundle)
    (h1 : parseVDLinesB b.vdShow = [])
    (h2 : cfg.vdNum = none)
    (h3 : (runChecks cfg b).warnings = [] ∧ (runChecks cfg b).critical_warnings = []) :
    (check_all cfg b).1 = STATE_OK ∧ (runChecks cfg b).vd_total = 0 := by
  have hE : parseVDLinesE b.vdShow = [] := parseE_nil b.vdShow h1
  constructor
  · have heq : check_all cfg b
        = evaluateRest cfg (runChecks cfg b) (suffixOf cfg (runChecks cfg b))
            (parseVDLinesE b.vdShow) := by
      unfold check_all
      simp [evaluate_status, h2]
    rw [heq, hE]
    exact (evaluateRest_cases cfg (runChecks cfg b)
      (suffixOf cfg (runChecks cfg b)) []).2.2.2 rfl h3.2 h3.1
  · have hR : countsOf (runChecks cfg b) = countsOf (build_perfdata b (preStatus b)) := by
      unfold runChecks
      dsimp only
      split
      · rw [long_counts]
      · rfl
    simp only [countsOf, Prod.mk.injEq] at hR
    rw [hR.1, (build_perfdata_spec b (preStatus b)).1, h1]
    rfl

def B9 : Bundle := { emptyBundle with vdShow := str "no drives here" }

theorem C9_witness :
    (check_all cfgDefault B9).1 = STATE_OK ∧ (runChecks cfgDefault B9).vd_total = 0 :=
  C9_empty_vd_ok cfgDefault B9 (by decide) rfl ⟨by decide, by decide⟩
